import Mathlib

/-
  A shallow embedding of the Meteor in-memory multi-version key-value store
  (transactional core) in Lean 4, together with theorems checking the
  natural-language specification against the translated code.

  Modelling conventions:
  * Go byte slices and strings both become Lean `String` (Go converts between
    them losslessly; every value in the claims originates from a command
    string).  A nil byte slice is the empty string.
  * Go pointers that may be nil (`*common.V`) become `Option V`.
  * Go `uint32` sequence numbers and transaction ids become `Nat`; the
    allocators are strictly monotone and no claim involves wrap-around, so no
    `% 2^32` reduction is observable.
  * Go maps become association lists; insertion updates the first matching
    binding group (all bindings of the key, so duplicate keys stay in sync)
    and lookup takes the first binding, which is exactly map semantics.
  * Fallible Go functions returning `(T, error)` become `Except String T`.
  * The execution model is the sequential one: each command handler is a
    function `DBState → DBState × Except String α`.  Lock acquisition cannot
    block in a sequential run (nobody could release while we wait), so a lock
    request that is not immediately grantable fails, which is what the Go
    code's timeout produces in that situation; the waiting queue is therefore
    always empty and elided.
-/

set_option autoImplicit false

namespace Meteor

instance instDecEqExcept {ε α : Type} [DecidableEq ε] [DecidableEq α] :
    DecidableEq (Except ε α) := fun a b =>
  match a, b with
  | Except.ok x, Except.ok y =>
    if h : x = y then isTrue (by rw [h]) else isFalse (by simp [h])
  | Except.error x, Except.error y =>
    if h : x = y then isTrue (by rw [h]) else isFalse (by simp [h])
  | Except.ok _, Except.error _ => isFalse (by simp)
  | Except.error _, Except.ok _ => isFalse (by simp)

/-! ## Data model (internal/common) -/

/-- Value type tags, from `datatypes.go` plus the tombstone tag that the
current sources use (`common.TypeTombstone`); the spec lists it in §3. -/
inductive DataType where
  | typeNull
  | typeUint8
  | typeUint16
  | typeUint32
  | typeUint64
  | typeInt8
  | typeInt16
  | typeInt32
  | typeInt64
  | typeBool
  | typeFloat32
  | typeFloat64
  | typeBytes
  | typeString
  | typeTombstone
  deriving DecidableEq, Repr

/-- A versioned key: logical key string plus the GSN tagging the version. -/
structure K where
  key : String
  gsn : Nat
  deriving DecidableEq, Repr

/-- A value: type tag plus payload bytes. -/
structure V where
  type : DataType
  value : String
  deriving DecidableEq, Repr

/-- Modelled from the spec: the sentinel key used for control rows
(`common.TypeKeyNull`); its definition file is not in the source dump, only
its uses (BEGIN/COMMIT/ROLLBACK stage a row under this key).  Its concrete
spelling is irrelevant to the claims; only its role as a fixed string is. -/
def TypeKeyNull : String := "NULL"

def DB_OP_BEGIN : String := "BEGIN"
def DB_OP_PUT : String := "PUT"
def DB_OP_DELETE : String := "DELETE"
def DB_OP_GET : String := "GET"
def DB_OP_COMMIT : String := "COMMIT"
def DB_OP_ROLLBACK : String := "ROLLBACK"

def TRANSACTION_STATE_QUEUED : String := "QUEUED"
def TRANSACTION_STATE_COMMIT : String := "COMMIT"
def TRANSACTION_STATE_ROLLBACK : String := "ROLLBACK"

def TXN_ISOLATION_READ_COMMITTED : String := "READ_COMMITTED"
def TXN_ISOLATION_REPEATABLE_READ : String := "REPEATABLE_READ"
def TXN_ISOLATION_SNAPSHOT_ISOLATION : String := "SNAPSHOT_ISOLATION"
def TXN_ISOLATION_SERIALIZABLE : String := "SERIALIZABLE"

structure TransactionPayload where
  key : K
  oldValue : Option V
  newValue : Option V
  deriving DecidableEq, Repr

structure TransactionRow where
  transactionId : Nat
  operation : String
  state : String
  payload : TransactionPayload
  deriving DecidableEq, Repr

def NewTransactionRow (transactionId : Nat) (operation state : String)
    (key : K) (oldValue newValue : Option V) : TransactionRow :=
  { transactionId := transactionId, operation := operation, state := state,
    payload := { key := key, oldValue := oldValue, newValue := newValue } }

/-- UTF-8 encoding of one character, as numbers (a structural model of the
standard encoder, needed because key hashing runs over bytes). -/
def utf8Bytes (c : Char) : List Nat :=
  let v := c.toNat
  if v < 128 then [v]
  else if v < 2048 then [192 + v / 64, 128 + v % 64]
  else if v < 65536 then
    [224 + v / 4096, 128 + (v / 64) % 64, 128 + v % 64]
  else
    [240 + v / 262144, 128 + (v / 4096) % 64, 128 + (v / 64) % 64,
      128 + v % 64]

/-- The UTF-8 bytes of a string. -/
def strBytes (s : String) : List Nat := s.data.flatMap utf8Bytes

/-- `common.HashKey`: `hash = 31*hash + byte` over the key's bytes, in
`uint32` arithmetic. -/
def HashKey (key : String) : Nat :=
  (strBytes key).foldl (fun h b => (31 * h + b) % 4294967296) 0

/-! ## MapDataTable (internal/datatable, current version)

The Go table is `map[string]map[uint32]*common.V`.  We model the inner GSN
map as an association list `GsnMap` and the outer map as an association list
of `(key, GsnMap)` pairs. -/

abbrev GsnMap : Type := List (Nat × Option V)

/-- Insert-or-replace in the inner GSN map (Go `gsnMap[gsn] = value`). -/
def GsnMap.upsert (m : GsnMap) (gsn : Nat) (v : Option V) : GsnMap :=
  if m.any (fun p => p.1 = gsn) then
    m.map (fun p => if p.1 = gsn then (gsn, v) else p)
  else
    (gsn, v) :: m

/-- The Go loop `for gsn := range gsnMap { if gsn > maxGsn ... }` with
`var maxGsn uint32` starting at zero. -/
def GsnMap.maxGsn (m : GsnMap) : Nat :=
  m.foldl (fun acc p => Nat.max acc p.1) 0

/-- `gsnMap[maxGsn]` — the Go indexing yields the nil pointer when the
computed maximum is not a key (only possible for an empty map). -/
def GsnMap.atMax (m : GsnMap) : Option V :=
  match m.find? (fun p => p.1 = m.maxGsn) with
  | some p => p.2
  | none => none

/-- Lookup a specific gsn (Go `gsnMap[bestGsn]`). -/
def GsnMap.at (m : GsnMap) (gsn : Nat) : Option V :=
  match m.find? (fun p => p.1 = gsn) with
  | some p => p.2
  | none => none

abbrev MapDataTable : Type := List (String × GsnMap)

instance instDecEqMapDataTable : DecidableEq MapDataTable := inferInstance

def MapDataTable.empty : MapDataTable := []

def MapDataTable.find (m : MapDataTable) (key : String) : Option GsnMap :=
  match m.find? (fun p => p.1 = key) with
  | some p => some p.2
  | none => none

/-- `MapDataTable.Get`: value of the version with maximal GSN, nil pointer if
the key is absent (or the stored pointer itself is nil). -/
def MapDataTable.get (m : MapDataTable) (key : String) : Option V :=
  match m.find key with
  | none => none
  | some gm => gm.atMax

/-- `MapDataTable.Put`: insert a version, creating the inner map if needed. -/
def MapDataTable.put (m : MapDataTable) (key : K) (value : Option V) :
    MapDataTable :=
  if m.any (fun p => p.1 = key.key) then
    m.map (fun p => if p.1 = key.key then (p.1, p.2.upsert key.gsn value) else p)
  else
    (key.key, [(key.gsn, value)]) :: m

/-- `MapDataTable.Keys`. -/
def MapDataTable.keys (m : MapDataTable) : List String :=
  m.map (fun p => p.1)

/-- `MapDataTable.GetLatestGsn`: errors with "key not found" when absent. -/
def MapDataTable.getLatestGsn (m : MapDataTable) (key : String) :
    Except String Nat :=
  match m.find key with
  | none => Except.error "key not found"
  | some gm => Except.ok gm.maxGsn

/-- `MapDataTable.GetVersionAtOrBeforeGsn`: highest GSN `≤ maxGsn`, nil when
no version qualifies. -/
def MapDataTable.getVersionAtOrBeforeGsn (m : MapDataTable) (key : String)
    (maxGsn : Nat) : Option V :=
  match m.find key with
  | none => none
  | some gm =>
    let best := gm.foldl
      (fun acc p =>
        if p.1 ≤ maxGsn then
          match acc with
          | none => some p.1
          | some b => if p.1 > b then some p.1 else some b
        else acc) none
    match best with
    | none => none
    | some bestGsn => gm.at bestGsn

/-- `getLatestValue` helper used by the scan family (same as `get`). -/
def MapDataTable.getLatestValue (m : MapDataTable) (key : String) : Option V :=
  m.get key

/-- `MapDataTable.ScanWithFilter`: all keys whose latest value is non-nil and
satisfies the filter, mapped to that latest value. -/
def MapDataTable.scanWithFilter (m : MapDataTable)
    (filterFunc : String → V → Bool) : List (String × V) :=
  m.keys.filterMap (fun key =>
    match m.getLatestValue key with
    | none => none
    | some v => if filterFunc key v then some (key, v) else none)

/-! ## BufferStore (internal/store, sharded) -/

def NUMBER_OF_SHARDS : Nat := 4

/-- The sharded store: a list of `NUMBER_OF_SHARDS` map data tables. -/
abbrev BufferStore : Type := List MapDataTable

instance instDecEqBufferStore : DecidableEq BufferStore := List.hasDecEq

def NewBufferStore : BufferStore :=
  List.replicate NUMBER_OF_SHARDS MapDataTable.empty

def shardIndex (key : String) : Nat :=
  HashKey key % NUMBER_OF_SHARDS

def BufferStore.shard (s : BufferStore) (key : String) : MapDataTable :=
  s.getD (shardIndex key) MapDataTable.empty

def BufferStore.get (s : BufferStore) (key : String) : Option V :=
  (s.shard key).get key

def BufferStore.put (s : BufferStore) (key : K) (value : Option V) :
    BufferStore :=
  s.set (shardIndex key.key) ((s.shard key.key).put key value)

def BufferStore.keys (s : BufferStore) : List String :=
  s.flatMap (fun shard => shard.keys)

def BufferStore.getLatestGsn (s : BufferStore) (key : String) :
    Except String Nat :=
  (s.shard key).getLatestGsn key

def BufferStore.getVersionAtOrBeforeGsn (s : BufferStore) (key : String)
    (maxGsn : Nat) : Option V :=
  (s.shard key).getVersionAtOrBeforeGsn key maxGsn

def BufferStore.scanWithFilter (s : BufferStore)
    (filterFunc : String → V → Bool) : List (String × V) :=
  s.flatMap (fun shard => shard.scanWithFilter filterFunc)

/-! ## Lock manager (internal/lockmanager)

In a sequential execution nothing can release a lock while an acquirer
waits, so `AcquireLock`'s wait-with-timeout path deterministically produces
the timeout (or deadlock) error; we collapse it to an immediate error and
keep the waiting queue empty. -/

inductive LockType where
  | readLock
  | writeLock
  | rangeLock
  | predicateLock
  deriving DecidableEq, Repr

/-- `Lock` (the `AcquiredAt` timestamp carries no semantics and is elided);
for point locks the range/predicate fields keep Go's zero value `""`. -/
structure Lock where
  transactionID : Nat
  key : String
  type : LockType
  startKey : String := ""
  endKey : String := ""
  predicate : String := ""
  deriving DecidableEq, Repr

structure LMState where
  lockTable : List (String × List Lock)
  transactionLocks : List (Nat × List Lock)
  deriving DecidableEq, Repr

def LMState.empty : LMState := { lockTable := [], transactionLocks := [] }

def LMState.locksOn (lm : LMState) (key : String) : List Lock :=
  match lm.lockTable.find? (fun p => p.1 = key) with
  | some p => p.2
  | none => []

def LMState.locksOf (lm : LMState) (t : Nat) : List Lock :=
  match lm.transactionLocks.find? (fun p => p.1 = t) with
  | some p => p.2
  | none => []

/-- `areLocksCompatible`: only read/read is compatible. -/
def areLocksCompatible (existing requested : LockType) : Bool :=
  existing = LockType.readLock ∧ requested = LockType.readLock

/-- `canGrantLock`: grantable when every existing lock of a different
transaction is compatible. -/
def LMState.canGrantLock (lm : LMState) (key : String) (lockType : LockType)
    (transactionID : Nat) : Bool :=
  (lm.locksOn key).all (fun l =>
    l.transactionID = transactionID || areLocksCompatible l.type lockType)

/-- Association-list update-or-insert keyed on the first component. -/
def listUpsert {α : Type} (l : List (String × α)) (key : String) (v : α) :
    List (String × α) :=
  if l.any (fun p => p.1 = key) then
    l.map (fun p => if p.1 = key then (key, v) else p)
  else
    (key, v) :: l

def natListUpsert {α : Type} (l : List (Nat × α)) (key : Nat) (v : α) :
    List (Nat × α) :=
  if l.any (fun p => p.1 = key) then
    l.map (fun p => if p.1 = key then (key, v) else p)
  else
    (key, v) :: l

def natListErase {α : Type} (l : List (Nat × α)) (key : Nat) : List (Nat × α) :=
  l.filter (fun p => p.1 ≠ key)

def strListErase {α : Type} (l : List (String × α)) (key : String) :
    List (String × α) :=
  l.filter (fun p => p.1 ≠ key)

/-- `grantLock`: append to both tables. -/
def LMState.grantLock (lm : LMState) (lock : Lock) : LMState :=
  { lockTable := listUpsert lm.lockTable lock.key
      (lm.locksOn lock.key ++ [lock]),
    transactionLocks := natListUpsert lm.transactionLocks lock.transactionID
      (lm.locksOf lock.transactionID ++ [lock]) }

/-- `AcquireLock` in the sequential model: grant immediately or fail (the Go
code would block and time out, or report a deadlock). -/
def LMState.acquireLock (lm : LMState) (transactionID : Nat) (key : String)
    (lockType : LockType) : LMState × Except String Unit :=
  if lm.canGrantLock key lockType transactionID then
    (lm.grantLock { transactionID := transactionID, key := key, type := lockType },
     Except.ok ())
  else
    (lm, Except.error ("lock acquisition timeout for transaction on key " ++ key))

/-- `releaseLock`: drop every lock of this (txn, key, type) from both tables;
errors when none was held. -/
def LMState.releaseLock (lm : LMState) (transactionID : Nat) (key : String)
    (lockType : LockType) : LMState × Except String Unit :=
  let locks := lm.locksOn key
  let newLocks := locks.filter (fun l =>
    ¬(l.transactionID = transactionID ∧ l.type = lockType))
  let found := locks.any (fun l =>
    l.transactionID = transactionID ∧ l.type = lockType)
  if found then
    let lockTable :=
      if newLocks.isEmpty then strListErase lm.lockTable key
      else listUpsert lm.lockTable key newLocks
    let txnLocks := (lm.locksOf transactionID).filter (fun l =>
      ¬(l.key = key ∧ l.type = lockType))
    let transactionLocks :=
      if txnLocks.isEmpty then natListErase lm.transactionLocks transactionID
      else natListUpsert lm.transactionLocks transactionID txnLocks
    ({ lockTable := lockTable, transactionLocks := transactionLocks },
     Except.ok ())
  else
    (lm, Except.error ("lock not found for transaction on key " ++ key))

/-- The loop body of `ReleaseAllLocks`: release each captured lock in order,
stopping at the first error (mutations so far persist). -/
def LMState.releaseList (lm : LMState) : List Lock → LMState × Except String Unit
  | [] => (lm, Except.ok ())
  | lock :: rest =>
    match lm.releaseLock lock.transactionID lock.key lock.type with
    | (lm', Except.ok _) => lm'.releaseList rest
    | (lm', Except.error e) => (lm', Except.error e)

/-- `ReleaseAllLocks`. -/
def LMState.releaseAllLocks (lm : LMState) (transactionID : Nat) :
    LMState × Except String Unit :=
  match lm.transactionLocks.find? (fun p => p.1 = transactionID) with
  | none => (lm, Except.ok ())
  | some p => lm.releaseList p.2

def rangesOverlap (start1 end1 start2 end2 : String) : Bool :=
  !(end1 < start2 || end2 < start1)

/-- `canGrantRangeLock`: a conflict with another transaction's lock on a key
inside `[startKey, endKey]` (composite range/predicate keys included, since
the Go code scans the whole lock table by string comparison), or with
another transaction's overlapping range lock stored under the identical
`range:start:end` composite key (the source's TODO admits overlapping
ranges under a different composite key are missed). -/
def LMState.canGrantRangeLock (lm : LMState) (startKey endKey : String)
    (transactionID : Nat) : Bool :=
  (lm.lockTable.all (fun p =>
    if startKey ≤ p.1 ∧ p.1 ≤ endKey then
      p.2.all (fun l => l.transactionID = transactionID)
    else true)) &&
  (match lm.lockTable.find?
      (fun p => p.1 = "range:" ++ startKey ++ ":" ++ endKey) with
   | none => true
   | some p => p.2.all (fun l =>
       l.transactionID = transactionID ||
       !(rangesOverlap startKey endKey l.startKey l.endKey)))

/-- `canGrantPredicateLock`: only the identical predicate string held by a
different transaction conflicts. -/
def LMState.canGrantPredicateLock (lm : LMState) (predicate : String)
    (transactionID : Nat) : Bool :=
  match lm.lockTable.find?
      (fun p => p.1 = "predicate:" ++ predicate) with
  | none => true
  | some p => p.2.all (fun l => l.transactionID = transactionID)

/-- `grantRangeLock` (same body as `grantLock`). -/
def LMState.grantRangeLock (lm : LMState) (lock : Lock) : LMState :=
  { lockTable := listUpsert lm.lockTable lock.key
      (lm.locksOn lock.key ++ [lock]),
    transactionLocks := natListUpsert lm.transactionLocks lock.transactionID
      (lm.locksOf lock.transactionID ++ [lock]) }

/-- `grantPredicateLock` (same body as `grantLock`). -/
def LMState.grantPredicateLock (lm : LMState) (lock : Lock) : LMState :=
  { lockTable := listUpsert lm.lockTable lock.key
      (lm.locksOn lock.key ++ [lock]),
    transactionLocks := natListUpsert lm.transactionLocks lock.transactionID
      (lm.locksOf lock.transactionID ++ [lock]) }

/-- `AcquireRangeLock` in the sequential model: grant immediately or fail
(the Go code would block and time out, or report a deadlock). -/
def LMState.acquireRangeLock (lm : LMState) (transactionID : Nat)
    (startKey endKey : String) : LMState × Except String Unit :=
  if lm.canGrantRangeLock startKey endKey transactionID then
    (lm.grantRangeLock
      { transactionID := transactionID,
        key := "range:" ++ startKey ++ ":" ++ endKey,
        type := LockType.rangeLock, startKey := startKey, endKey := endKey },
     Except.ok ())
  else
    (lm, Except.error ("range lock acquisition timeout for transaction on range [" ++ startKey ++ ", " ++ endKey ++ "]"))

/-- `AcquirePredicateLock` in the sequential model: grant immediately or
fail (the Go code would block and time out, or report a deadlock). -/
def LMState.acquirePredicateLock (lm : LMState) (transactionID : Nat)
    (predicate : String) : LMState × Except String Unit :=
  if lm.canGrantPredicateLock predicate transactionID then
    (lm.grantPredicateLock
      { transactionID := transactionID,
        key := "predicate:" ++ predicate,
        type := LockType.predicateLock, predicate := predicate },
     Except.ok ())
  else
    (lm, Except.error ("predicate lock acquisition timeout for transaction on predicate " ++ predicate))

/-! ## Database state

`DBState` bundles the buffer store (`StoreManager.BufferStore`), the
transaction manager's maps, the lock manager, the two allocators and the WAL
(as the list of appended rows; `config.UseWal` is true and appends always
succeed).  Connections are identified by an abstract `Nat` token standing
for the `*net.Conn` pointer. -/

structure DBState where
  buffer : BufferStore
  stores : List (Nat × BufferStore)
  connTxns : List (Nat × List Nat)
  isoLevels : List (Nat × String)
  startGsns : List (Nat × Nat)
  locks : LMState
  currentTransactionId : Nat
  currentGsn : Nat
  wal : List TransactionRow
  deriving DecidableEq

def initState : DBState :=
  { buffer := NewBufferStore, stores := [], connTxns := [], isoLevels := [],
    startGsns := [], locks := LMState.empty,
    currentTransactionId := 0, currentGsn := 0, wal := [] }

/-! ## Transaction manager (internal/transactionmanager, current version) -/

/-- `GetNewTransactionId`: the atomic counter incremented and returned; batch
refills from the WAL header only renumber and are elided. -/
def DBState.getNewTransactionId (s : DBState) : DBState × Nat :=
  ({ s with currentTransactionId := s.currentTransactionId + 1 },
   s.currentTransactionId + 1)

/-- `GetNewGsn` (gsnmanager): same shape as the transaction-id allocator. -/
def DBState.getNewGsn (s : DBState) : DBState × Nat :=
  ({ s with currentGsn := s.currentGsn + 1 }, s.currentGsn + 1)

/-- `IsNewTransactionId`: no staging store registered under this id. -/
def DBState.isNewTransactionId (s : DBState) (t : Nat) : Bool :=
  ¬ s.stores.any (fun p => p.1 = t)

def DBState.connIds (s : DBState) (conn : Nat) : List Nat :=
  match s.connTxns.find? (fun p => p.1 = conn) with
  | some p => p.2
  | none => []

/-- `isTransactionIdAllowedForConnection`. -/
def DBState.isAllowedForConn (s : DBState) (t conn : Nat) : Bool :=
  if s.isNewTransactionId t then true
  else
    match s.connTxns.find? (fun p => p.1 = conn) with
    | none => false
    | some p => p.2.contains t

/-- `registerTransactionForConnection`. -/
def DBState.registerForConn (s : DBState) (t conn : Nat) : DBState :=
  let ids := s.connIds conn
  if ids.contains t then
    { s with connTxns := natListUpsert s.connTxns conn ids }
  else
    { s with connTxns := natListUpsert s.connTxns conn (ids ++ [t]) }

def DBState.getTransactionStore (s : DBState) (t : Nat) : Option BufferStore :=
  match s.stores.find? (fun p => p.1 = t) with
  | some p => some p.2
  | none => none

/-- `AddTransaction`: ownership check, connection registration, then stage the
row's key/new-value into the transaction's store (creating it if absent). -/
def DBState.addTransaction (s : DBState) (row : TransactionRow) (conn : Nat) :
    DBState × Except String Unit :=
  if ¬ s.isAllowedForConn row.transactionId conn then
    (s, Except.error "transaction id not allowed for connection")
  else
    let s₁ := s.registerForConn row.transactionId conn
    let store := (s₁.getTransactionStore row.transactionId).getD NewBufferStore
    let store' := store.put row.payload.key row.payload.newValue
    ({ s₁ with stores := natListUpsert s₁.stores row.transactionId store' },
     Except.ok ())

/-- `ClearTransactionStore`: release the transaction's locks (error ignored)
and drop its staging store, isolation level and start GSN. -/
def DBState.clearTransactionStore (s : DBState) (t : Nat) : DBState :=
  { s with
    locks := (s.locks.releaseAllLocks t).1,
    stores := natListErase s.stores t,
    isoLevels := natListErase s.isoLevels t,
    startGsns := natListErase s.startGsns t }

/-- `GetStoreByTransactionId`. -/
def DBState.getStoreByTransactionId (s : DBState) (t conn : Nat) :
    Except String (Option BufferStore) :=
  if ¬ s.isAllowedForConn t conn then
    Except.error "transaction id not allowed for connection"
  else
    Except.ok (s.getTransactionStore t)

/-- `EnsureIsolationLevel`: first call wins, disagreement errors. -/
def DBState.ensureIsolationLevel (s : DBState) (t : Nat) (lvl : String) :
    DBState × Except String Unit :=
  match s.isoLevels.find? (fun p => p.1 = t) with
  | none =>
    ({ s with isoLevels := natListUpsert s.isoLevels t lvl }, Except.ok ())
  | some p =>
    if p.2 ≠ lvl then
      (s, Except.error ("transaction isolation level mismatch: " ++ p.2 ++
        " != " ++ lvl))
    else (s, Except.ok ())

/-- `GetIsolationLevel`: defaults (and records) READ_COMMITTED when unset;
the Go version never returns a non-nil error. -/
def DBState.getIsolationLevel (s : DBState) (t : Nat) : DBState × String :=
  match s.isoLevels.find? (fun p => p.1 = t) with
  | none =>
    ({ s with isoLevels := natListUpsert s.isoLevels t TXN_ISOLATION_READ_COMMITTED },
     TXN_ISOLATION_READ_COMMITTED)
  | some p => (s, p.2)

def DBState.setTransactionStartGsn (s : DBState) (t gsn : Nat) : DBState :=
  { s with startGsns := natListUpsert s.startGsns t gsn }

def DBState.getTransactionStartGsn (s : DBState) (t : Nat) : Option Nat :=
  match s.startGsns.find? (fun p => p.1 = t) with
  | some p => some p.2
  | none => none

/-- `AcquireReadLock`: no read locks under snapshot isolation. -/
def DBState.acquireReadLock (s : DBState) (t : Nat) (key : String)
    (isolationLevel : String) : DBState × Except String Unit :=
  if isolationLevel = TXN_ISOLATION_SNAPSHOT_ISOLATION then (s, Except.ok ())
  else if isolationLevel = TXN_ISOLATION_READ_COMMITTED ∨
      isolationLevel = TXN_ISOLATION_REPEATABLE_READ ∨
      isolationLevel = TXN_ISOLATION_SERIALIZABLE then
    let (lm, r) := s.locks.acquireLock t key LockType.readLock
    ({ s with locks := lm }, r)
  else
    (s, Except.error ("unknown isolation level: " ++ isolationLevel))

/-- `AcquireWriteLock`: all isolation levels take the point write lock. -/
def DBState.acquireWriteLock (s : DBState) (t : Nat) (key : String)
    (isolationLevel : String) : DBState × Except String Unit :=
  if isolationLevel = TXN_ISOLATION_READ_COMMITTED ∨
      isolationLevel = TXN_ISOLATION_REPEATABLE_READ ∨
      isolationLevel = TXN_ISOLATION_SNAPSHOT_ISOLATION ∨
      isolationLevel = TXN_ISOLATION_SERIALIZABLE then
    let (lm, r) := s.locks.acquireLock t key LockType.writeLock
    ({ s with locks := lm }, r)
  else
    (s, Except.error ("unknown isolation level: " ++ isolationLevel))

/-- `ReleaseReadLock`: immediate release only for READ_COMMITTED. -/
def DBState.releaseReadLock (s : DBState) (t : Nat) (key : String)
    (isolationLevel : String) : DBState × Except String Unit :=
  if isolationLevel = TXN_ISOLATION_READ_COMMITTED then
    let (lm, r) := s.locks.releaseLock t key LockType.readLock
    ({ s with locks := lm }, r)
  else if isolationLevel = TXN_ISOLATION_REPEATABLE_READ ∨
      isolationLevel = TXN_ISOLATION_SERIALIZABLE ∨
      isolationLevel = TXN_ISOLATION_SNAPSHOT_ISOLATION then
    (s, Except.ok ())
  else
    (s, Except.error ("unknown isolation level: " ++ isolationLevel))

/-- `getVersionAtGsn`: delegates to the buffer store's version search. -/
def DBState.getVersionAtGsn (s : DBState) (key : String) (maxGsn : Nat) :
    Option V :=
  s.buffer.getVersionAtOrBeforeGsn key maxGsn

/-- `ReadValue`: transaction store first (read-your-writes), then the buffer
store according to the isolation level. -/
def DBState.readValue (s : DBState) (t : Nat) (key : String) (conn : Nat) :
    DBState × Except String (Option V) :=
  let (s₁, isolationLevel) := s.getIsolationLevel t
  match s₁.getStoreByTransactionId t conn with
  | Except.error e => (s₁, Except.error e)
  | Except.ok transactionStore =>
    match transactionStore.bind (fun st => st.get key) with
    | some value => (s₁, Except.ok (some value))
    | none =>
      if isolationLevel = TXN_ISOLATION_READ_COMMITTED ∨
          isolationLevel = TXN_ISOLATION_REPEATABLE_READ ∨
          isolationLevel = TXN_ISOLATION_SERIALIZABLE then
        (s₁, Except.ok (s₁.buffer.get key))
      else if isolationLevel = TXN_ISOLATION_SNAPSHOT_ISOLATION then
        match s₁.getTransactionStartGsn t with
        | none =>
          (s₁, Except.error "transaction start GSN not found for snapshot isolation")
        | some startGsn => (s₁, Except.ok (s₁.getVersionAtGsn key startGsn))
      else
        (s₁, Except.error ("unknown isolation level: " ++ isolationLevel))

/-- `validateFirstCommitterWins`: conflict iff the key's committed latest GSN
is strictly newer than the transaction's start GSN. -/
def DBState.validateFirstCommitterWins (s : DBState) (t : Nat) (key : String) :
    Except String Unit :=
  match s.getTransactionStartGsn t with
  | none => Except.error "transaction start GSN not found for snapshot isolation"
  | some startGsn =>
    match s.buffer.getLatestGsn key with
    | Except.error _ => Except.ok ()
    | Except.ok latestGsn =>
      if latestGsn > startGsn then
        Except.error "write-write conflict detected - another transaction committed first"
      else Except.ok ()

/-- `ValidateWrite`: only snapshot isolation adds a check. -/
def DBState.validateWrite (s : DBState) (t : Nat) (key : String) :
    DBState × Except String Unit :=
  let (s₁, isolationLevel) := s.getIsolationLevel t
  if isolationLevel = TXN_ISOLATION_READ_COMMITTED ∨
      isolationLevel = TXN_ISOLATION_REPEATABLE_READ ∨
      isolationLevel = TXN_ISOLATION_SERIALIZABLE then
    (s₁, Except.ok ())
  else if isolationLevel = TXN_ISOLATION_SNAPSHOT_ISOLATION then
    (s₁, s₁.validateFirstCommitterWins t key)
  else
    (s₁, Except.error ("unknown isolation level: " ++ isolationLevel))

/-- The transaction manager's call into the lock manager's
`AcquirePredicateLock`: the range and predicate locks live in the same two
lock tables as the point locks, so `ClearTransactionStore`'s
`ReleaseAllLocks` releases them too. -/
def DBState.lmAcquirePredicateLock (s : DBState) (t : Nat) (predicate : String) :
    DBState × Except String Unit :=
  let (lm, r) := s.locks.acquirePredicateLock t predicate
  ({ s with locks := lm }, r)

/-- The transaction manager's call into the lock manager's
`AcquireRangeLock`. -/
def DBState.lmAcquireRangeLock (s : DBState) (t : Nat) (startKey endKey : String) :
    DBState × Except String Unit :=
  let (lm, r) := s.locks.acquireRangeLock t startKey endKey
  ({ s with locks := lm }, r)

/-- `AcquirePredicateLock` (transaction manager): serializable only. -/
def DBState.acquirePredicateLock (s : DBState) (t : Nat) (predicate : String) :
    DBState × Except String Unit :=
  let (s₁, isolationLevel) := s.getIsolationLevel t
  if isolationLevel ≠ TXN_ISOLATION_SERIALIZABLE then (s₁, Except.ok ())
  else s₁.lmAcquirePredicateLock t predicate

/-- `AcquireRangeLock` (transaction manager): serializable only. -/
def DBState.acquireRangeLock (s : DBState) (t : Nat) (startKey endKey : String) :
    DBState × Except String Unit :=
  let (s₁, isolationLevel) := s.getIsolationLevel t
  if isolationLevel ≠ TXN_ISOLATION_SERIALIZABLE then (s₁, Except.ok ())
  else s₁.lmAcquireRangeLock t startKey endKey

/-- `ReadFilteredValues`: transaction store's matches first, then the buffer
store's (under snapshot isolation, against the snapshot version); the
transaction store wins for overlapping keys. -/
def DBState.readFilteredValues (s : DBState) (t : Nat)
    (filterFunc : String → V → Bool) (conn : Nat) :
    DBState × Except String (List (String × V)) :=
  let (s₁, isolationLevel) := s.getIsolationLevel t
  match s₁.getStoreByTransactionId t conn with
  | Except.error e => (s₁, Except.error e)
  | Except.ok transactionStore =>
    let result :=
      match transactionStore with
      | some st => st.scanWithFilter filterFunc
      | none => []
    if isolationLevel = TXN_ISOLATION_READ_COMMITTED ∨
        isolationLevel = TXN_ISOLATION_REPEATABLE_READ ∨
        isolationLevel = TXN_ISOLATION_SERIALIZABLE then
      let bufferResults := s₁.buffer.scanWithFilter filterFunc
      (s₁, Except.ok (result ++ bufferResults.filter
        (fun p => ¬ result.any (fun q => q.1 = p.1))))
    else if isolationLevel = TXN_ISOLATION_SNAPSHOT_ISOLATION then
      match s₁.getTransactionStartGsn t with
      | none =>
        (s₁, Except.error "transaction start GSN not found for snapshot isolation")
      | some startGsn =>
        let snapshotFilter := fun (key : String) (_ : V) =>
          match s₁.getVersionAtGsn key startGsn with
          | none => false
          | some snapshotValue => filterFunc key snapshotValue
        let bufferResults := s₁.buffer.scanWithFilter snapshotFilter
        (s₁, Except.ok (result ++ bufferResults.filter
          (fun p => ¬ result.any (fun q => q.1 = p.1))))
    else
      (s₁, Except.error ("unknown isolation level: " ++ isolationLevel))

/-- `StoreManager.PutTxnRowToBufferStore`. -/
def DBState.putTxnRowToBufferStore (s : DBState) (row : TransactionRow) :
    DBState :=
  { s with buffer := s.buffer.put row.payload.key row.payload.newValue }

/-- `DBManager.AddTransactionToWal` with `useWal = true`; appends always
succeed in the model. -/
def DBState.addTransactionToWal (s : DBState) (row : TransactionRow) :
    DBState × Except String Unit :=
  ({ s with wal := s.wal ++ [row] }, Except.ok ())

/-! ## String helpers mirroring the Go standard library

Scan/filter string manipulation operates on characters; the Go originals
operate on bytes, which coincides on the ASCII inputs the claims use
(`HashKey`, which must be fully general, already works on bytes). -/

def strContains (hay needle : String) : Bool :=
  (List.range (hay.data.length + 1)).any
    (fun i => (hay.data.drop i).take needle.data.length == needle.data)

def strStartsWith (s pre : String) : Bool :=
  s.data.take pre.data.length == pre.data

def strEndsWith (s suf : String) : Bool :=
  decide (suf.data.length ≤ s.data.length) &&
    (s.data.drop (s.data.length - suf.data.length) == suf.data)

/-- `strings.TrimSuffix`: remove one trailing occurrence. -/
def goTrimOneSuffix (s suf : String) : String :=
  if strEndsWith s suf then
    String.mk (s.data.take (s.data.length - suf.data.length))
  else s

/-- `strings.TrimPrefix`: remove one leading occurrence. -/
def goTrimOnePre (s pre : String) : String :=
  if strStartsWith s pre then String.mk (s.data.drop pre.data.length) else s

/-- `strings.Trim(s, "%")`: strip every leading and trailing percent sign. -/
def goTrimPercent (s : String) : String :=
  String.mk (((s.data.dropWhile (fun c => c = '%')).reverse.dropWhile
    (fun c => c = '%')).reverse)

/-- Split a character list at a separator predicate (structural). -/
def splitChars (p : Char → Bool) : List Char → List (List Char)
  | [] => [[]]
  | c :: rest =>
    let r := splitChars p rest
    if p c then [] :: r
    else
      match r with
      | [] => [[c]]
      | w :: ws => (c :: w) :: ws

/-- `strings.Fields`: whitespace-separated words. -/
def strFields (s : String) : List String :=
  ((splitChars (fun c => c = ' ' ∨ c = '\t' ∨ c = '\n' ∨ c = '\r')
    s.data).map String.mk).filter (fun w => w ≠ "")

def digitsVal (l : List Char) : Nat :=
  l.foldl (fun a c => a * 10 + (c.toNat - 48)) 0

/-- Model of `strconv.ParseFloat(s, 64)` over plain decimal literals, as an
exact rational: optional sign, digits with at most one point.  Exponent, hex
and infinity forms are not modelled; no claim exercises them, and every
literal appearing in the claims is exactly representable, so the
double-rounding of the Go original is unobservable here.  -/
def goParseFloat (s : String) : Option Rat :=
  let withSign : Rat → Rat × List Char :=
    fun sg => (sg, s.data)
  let (sign, cs) : Rat × List Char :=
    match s.data with
    | '+' :: rest => (1, rest)
    | '-' :: rest => (-1, rest)
    | _ => withSign 1
  match (splitChars (fun c => c = '.') cs).map String.mk with
  | [ip] =>
    if ip.data ≠ [] ∧ ip.data.all Char.isDigit then
      some (sign * (digitsVal ip.data : Rat))
    else none
  | [ip, fp] =>
    if (ip.data ≠ [] ∨ fp.data ≠ []) ∧ ip.data.all Char.isDigit ∧
        fp.data.all Char.isDigit then
      some (sign * ((digitsVal ip.data : Rat) +
        (digitsVal fp.data : Rat) / ((10 : Rat) ^ fp.data.length)))
    else none
  | _ => none

/-! ## JSON rendering (`encoding/json` on `map[string]string` values)

`json.Marshal` emits object members sorted by key.  Escaping is restricted
to quote and backslash; the inputs in the claims contain neither control
characters nor HTML-escaped runes. -/

def jsonEscape (s : String) : String :=
  String.mk (s.data.flatMap (fun c =>
    if c = '"' then ['\\', '"']
    else if c = '\\' then ['\\', '\\']
    else [c]))

def jsonQuote (s : String) : String :=
  "\"" ++ jsonEscape s ++ "\""

def insertSortedByKey (p : String × String) :
    List (String × String) → List (String × String)
  | [] => [p]
  | q :: rest =>
    if p.1 ≤ q.1 then p :: q :: rest else q :: insertSortedByKey p rest

def sortByKey (l : List (String × String)) : List (String × String) :=
  l.foldr insertSortedByKey []

def jsonMarshalObj (l : List (String × String)) : String :=
  "\x7b" ++ String.intercalate ","
    ((sortByKey l).map (fun p => jsonQuote p.1 ++ ":" ++ jsonQuote p.2)) ++
  "\x7d"

/-! ## Command-layer helpers -/

/-- `gsn, _ := bufferStore.GetLatestGsn(key)` — the ignored error leaves the
`uint32` zero value. -/
def gsnOrZero (b : BufferStore) (key : String) : Nat :=
  match b.getLatestGsn key with
  | Except.ok g => g
  | Except.error _ => 0

/-- `strconv.ParseUint(s, 10, 32)`: base-10 digits only, 32-bit range. -/
def parseUint32 (s : String) : Option Nat :=
  if s.data ≠ [] ∧ s.data.all Char.isDigit then
    if digitsVal s.data < 4294967296 then some (digitsVal s.data) else none
  else none

/-! ## BEGIN (internal/commands/begin.go) -/

def ensureBegin (args : List String) : Except String String :=
  if args.length ≠ 0 ∧ args.length ≠ 1 then
    Except.error "command must have no arguments or one argument - transactionIsolation"
  else if args.length = 1 then
    let transactionIsolation := args.getD 0 ""
    if transactionIsolation = TXN_ISOLATION_READ_COMMITTED ∨
        transactionIsolation = TXN_ISOLATION_REPEATABLE_READ ∨
        transactionIsolation = TXN_ISOLATION_SNAPSHOT_ISOLATION ∨
        transactionIsolation = TXN_ISOLATION_SERIALIZABLE then
      Except.ok transactionIsolation
    else
      Except.error "invalid transaction isolation level. Valid levels are: READ_COMMITTED, REPEATABLE_READ, SNAPSHOT_ISOLATION, SERIALIZABLE"
  else Except.ok TXN_ISOLATION_READ_COMMITTED

def execBegin (transactionIsolation : String) (conn : Nat) (s : DBState) :
    DBState × Except String String :=
  let (s₁, transactionId) := s.getNewTransactionId
  match s₁.ensureIsolationLevel transactionId transactionIsolation with
  | (s₂, Except.error e) => (s₂, Except.error e)
  | (s₂, Except.ok _) =>
    let (s₃, gsn) := s₂.getNewGsn
    let s₄ :=
      if transactionIsolation = TXN_ISOLATION_SNAPSHOT_ISOLATION then
        s₃.setTransactionStartGsn transactionId gsn
      else s₃
    let row := NewTransactionRow transactionId DB_OP_BEGIN
      TRANSACTION_STATE_QUEUED { key := TypeKeyNull, gsn := gsn } none none
    match s₄.addTransaction row conn with
    | (s₅, Except.error e) =>
      (s₅.clearTransactionStore transactionId, Except.error e)
    | (s₅, Except.ok _) =>
      match s₅.addTransactionToWal row with
      | (s₆, Except.error e) =>
        (s₆.clearTransactionStore transactionId, Except.error e)
      | (s₆, Except.ok _) => (s₆, Except.ok (toString transactionId))

/-! ## COMMIT (the current `execCommit`) -/

def ensureCommit (args : List String) : Except String Nat :=
  if args.length ≠ 1 then
    Except.error "command must have one argument - transactionId"
  else
    match parseUint32 (args.getD 0 "") with
    | none => Except.error "invalid transactionId"
    | some transactionId => Except.ok transactionId

/-- The validation loop of `execCommit` over the staged keys: skip nil values
and GET echoes that are byte-identical to the committed value; compare the
staged latest GSN against the buffer store's (propagating its error); then
run the isolation-level validation; collect the entries to apply. -/
def commitValidate (transactionId : Nat) (store : BufferStore) (conn : Nat) :
    DBState → List String → List (K × V) →
    DBState × Except String (List (K × V))
  | s, [], acc => (s, Except.ok acc)
  | s, keyStr :: rest, acc =>
    match store.get keyStr with
    | none => commitValidate transactionId store conn s rest acc
    | some value =>
      let bufferValue := s.buffer.get keyStr
      if (match bufferValue with
          | some bv => decide (value.type = bv.type ∧ value.value = bv.value)
          | none => false) = true then
        commitValidate transactionId store conn s rest acc
      else
        match store.getLatestGsn keyStr with
        | Except.error e =>
          (s.clearTransactionStore transactionId, Except.error e)
        | Except.ok latestGsn =>
          match s.buffer.getLatestGsn keyStr with
          | Except.error e =>
            (s.clearTransactionStore transactionId, Except.error e)
          | Except.ok bufferLatestGsn =>
            if bufferLatestGsn > latestGsn then
              (s.clearTransactionStore transactionId,
               Except.error ("write-write conflict detected - another transaction committed first for key: " ++ keyStr))
            else
              match s.validateWrite transactionId keyStr with
              | (s', Except.error e) =>
                (s'.clearTransactionStore transactionId, Except.error e)
              | (s', Except.ok _) =>
                commitValidate transactionId store conn s' rest
                  (acc ++ [({ key := keyStr, gsn := latestGsn }, value)])

/-- Apply the validated entries to the buffer store (`BufferStore.Put` never
fails). -/
def applyEntries (s : DBState) (entries : List (K × V)) : DBState :=
  entries.foldl (fun st e => { st with buffer := st.buffer.put e.1 (some e.2) }) s

def execCommit (transactionId : Nat) (conn : Nat) (s : DBState) :
    DBState × Except String String :=
  let (s₁, gsn) := s.getNewGsn
  let key : K := { key := TypeKeyNull, gsn := gsn }
  match s₁.getTransactionStore transactionId with
  | none => (s₁, Except.error "transaction not found")
  | some transactionStore =>
    match commitValidate transactionId transactionStore conn s₁
        transactionStore.keys [] with
    | (s₂, Except.error e) => (s₂, Except.error e)
    | (s₂, Except.ok validatedEntries) =>
      let row := NewTransactionRow transactionId DB_OP_COMMIT
        TRANSACTION_STATE_COMMIT key none none
      match s₂.addTransaction row conn with
      | (s₃, Except.error e) =>
        (s₃.clearTransactionStore transactionId, Except.error e)
      | (s₃, Except.ok _) =>
        match s₃.addTransactionToWal row with
        | (s₄, Except.error e) =>
          (s₄.clearTransactionStore transactionId, Except.error e)
        | (s₄, Except.ok _) =>
          let s₅ := applyEntries s₄ validatedEntries
          (s₅.clearTransactionStore transactionId, Except.ok "OK")

/-! ## PUT (internal/commands/put.go, current version) -/

structure PutArgs where
  key : String
  value : String
  isPartOfExistingTransaction : Bool
  transactionId : Nat
  deriving DecidableEq, Repr

def ensurePut (args : List String) (s : DBState) :
    DBState × Except String PutArgs :=
  if args.length < 2 then
    (s, Except.error "command must have at least 2 arguments - key, value")
  else if args.length = 2 then
    let (s₁, transactionId) := s.getNewTransactionId
    (s₁, Except.ok ⟨args.getD 0 "", args.getD 1 "", false, transactionId⟩)
  else if args.length = 3 then
    match parseUint32 (args.getD 2 "") with
    | none => (s, Except.error "invalid transactionId")
    | some transactionId =>
      if s.isNewTransactionId transactionId then
        (s, Except.error "transactionId not allowed")
      else
        (s, Except.ok ⟨args.getD 0 "", args.getD 1 "", true, transactionId⟩)
  else
    (s, Except.error "command must have at most 3 arguments - key, value, transactionId")

def execPut (putArgs : PutArgs) (conn : Nat) (s : DBState) :
    DBState × Except String String :=
  let key := putArgs.key
  let value := putArgs.value
  let isPart := putArgs.isPartOfExistingTransaction
  let transactionId := putArgs.transactionId
  let (s₁, isolationLevel) := s.getIsolationLevel transactionId
  match s₁.acquireWriteLock transactionId key isolationLevel with
  | (s₂, Except.error e) =>
    (s₂.clearTransactionStore transactionId, Except.error e)
  | (s₂, Except.ok _) =>
    let (s₃, gsn) := s₂.getNewGsn
    let keyObj : K := { key := key, gsn := gsn }
    let valueObj : V := { type := DataType.typeString, value := value }
    match s₃.readValue transactionId key conn with
    | (s₄, Except.error e) =>
      (s₄.clearTransactionStore transactionId, Except.error e)
    | (s₄, Except.ok oldValue) =>
      match s₄.validateWrite transactionId key with
      | (s₅, Except.error e) =>
        (s₅.clearTransactionStore transactionId, Except.error e)
      | (s₅, Except.ok _) =>
        let transactionState :=
          if isPart then TRANSACTION_STATE_QUEUED else TRANSACTION_STATE_COMMIT
        let row := NewTransactionRow transactionId DB_OP_PUT transactionState
          keyObj oldValue (some valueObj)
        match s₅.addTransaction row conn with
        | (s₆, Except.error e) =>
          (s₆.clearTransactionStore transactionId, Except.error e)
        | (s₆, Except.ok _) =>
          match s₆.addTransactionToWal row with
          | (s₇, Except.error e) =>
            (s₇.clearTransactionStore transactionId, Except.error e)
          | (s₇, Except.ok _) =>
            if ¬ isPart then
              let s₈ := s₇.putTxnRowToBufferStore row
              (s₈.clearTransactionStore transactionId, Except.ok "OK")
            else (s₇, Except.ok "QUEUED")

/-! ## GET (the current `execGet`) -/

structure GetArgs where
  key : String
  isPartOfExistingTransaction : Bool
  transactionId : Nat
  deriving DecidableEq, Repr

def ensureGet (args : List String) (s : DBState) :
    DBState × Except String GetArgs :=
  if args.length < 1 then
    (s, Except.error "command must have at least one argument - key")
  else if args.length = 1 then
    let (s₁, transactionId) := s.getNewTransactionId
    (s₁, Except.ok ⟨args.getD 0 "", false, transactionId⟩)
  else if args.length = 2 then
    match parseUint32 (args.getD 1 "") with
    | none => (s, Except.error "invalid transactionId")
    | some transactionId =>
      if s.isNewTransactionId transactionId then
        (s, Except.error "transactionId not allowed")
      else
        (s, Except.ok ⟨args.getD 0 "", true, transactionId⟩)
  else
    (s, Except.error "command must have at most 2 arguments - key, transactionId")

def execGet (getArgs : GetArgs) (conn : Nat) (s : DBState) :
    DBState × Except String String :=
  let key := getArgs.key
  let transactionId := getArgs.transactionId
  let (s₁, isolationLevel) := s.getIsolationLevel transactionId
  match s₁.acquireReadLock transactionId key isolationLevel with
  | (s₂, Except.error e) =>
    (s₂.clearTransactionStore transactionId, Except.error e)
  | (s₂, Except.ok _) =>
    -- the deferred ReleaseReadLock runs on every exit from here on
    let finish := fun (st : DBState) =>
      (st.releaseReadLock transactionId key isolationLevel).1
    match s₂.readValue transactionId key conn with
    | (s₃, Except.error e) =>
      (finish (s₃.clearTransactionStore transactionId), Except.error e)
    | (s₃, Except.ok v) =>
      let valueToStore : Option V :=
        match v with
        | none => none
        | some vv =>
          if vv.type = DataType.typeTombstone then
            some { type := DataType.typeTombstone, value := "" }
          else some vv
      let valueToReturn : String :=
        match v with
        | none => "-1"
        | some vv => if vv.type = DataType.typeTombstone then "-2" else vv.value
      if isolationLevel = TXN_ISOLATION_REPEATABLE_READ ∨
          isolationLevel = TXN_ISOLATION_SNAPSHOT_ISOLATION then
        let gsn := gsnOrZero s₃.buffer key
        let row := NewTransactionRow transactionId DB_OP_GET
          TRANSACTION_STATE_QUEUED { key := key, gsn := gsn } none valueToStore
        match s₃.addTransaction row conn with
        | (s₄, Except.error e) =>
          (finish (s₄.clearTransactionStore transactionId), Except.error e)
        | (s₄, Except.ok _) =>
          let s₅ := (s₄.addTransactionToWal row).1
          (finish s₅, Except.ok valueToReturn)
      else
        (finish s₃, Except.ok valueToReturn)

/-! ## DELETE (the current `execDelete`) -/

structure DeleteArgs where
  key : String
  transactionId : Nat
  isPartOfExistingTransaction : Bool
  deriving DecidableEq, Repr

def ensureDelete (args : List String) (s : DBState) :
    DBState × Except String DeleteArgs :=
  if args.length < 1 then
    (s, Except.error "command must have at least one argument - key")
  else if args.length = 1 then
    let (s₁, transactionId) := s.getNewTransactionId
    (s₁, Except.ok ⟨args.getD 0 "", transactionId, false⟩)
  else if args.length = 2 then
    match parseUint32 (args.getD 1 "") with
    | none => (s, Except.error "invalid transactionId")
    | some transactionId =>
      if s.isNewTransactionId transactionId then
        (s, Except.error "transactionId not allowed")
      else
        (s, Except.ok ⟨args.getD 0 "", transactionId, true⟩)
  else
    (s, Except.error "command must have at most 2 arguments - key, transactionId")

def execDelete (deleteArgs : DeleteArgs) (conn : Nat) (s : DBState) :
    DBState × Except String String :=
  let key := deleteArgs.key
  let isPart := deleteArgs.isPartOfExistingTransaction
  let transactionId := deleteArgs.transactionId
  let (s₁, isolationLevel) := s.getIsolationLevel transactionId
  match s₁.acquireWriteLock transactionId key isolationLevel with
  | (s₂, Except.error e) =>
    (s₂.clearTransactionStore transactionId, Except.error e)
  | (s₂, Except.ok _) =>
    let (s₃, gsn) := s₂.getNewGsn
    let keyObj : K := { key := key, gsn := gsn }
    match s₃.readValue transactionId key conn with
    | (s₄, Except.error e) =>
      (s₄.clearTransactionStore transactionId, Except.error e)
    | (s₄, Except.ok oldValue) =>
      let tombstone : V := { type := DataType.typeTombstone, value := "" }
      match s₄.validateWrite transactionId key with
      | (s₅, Except.error e) =>
        (s₅.clearTransactionStore transactionId, Except.error e)
      | (s₅, Except.ok _) =>
        let transactionState :=
          if isPart then TRANSACTION_STATE_QUEUED else TRANSACTION_STATE_COMMIT
        let row := NewTransactionRow transactionId DB_OP_DELETE
          transactionState keyObj oldValue (some tombstone)
        match s₅.addTransaction row conn with
        | (s₆, Except.error e) =>
          (s₆.clearTransactionStore transactionId, Except.error e)
        | (s₆, Except.ok _) =>
          match s₆.addTransactionToWal row with
          | (s₇, Except.error e) =>
            (s₇.clearTransactionStore transactionId, Except.error e)
          | (s₇, Except.ok _) =>
            if ¬ isPart then
              let s₈ := s₇.putTxnRowToBufferStore row
              (s₈.clearTransactionStore transactionId, Except.ok "OK")
            else (s₇, Except.ok "QUEUED")

/-! ## Prefix scans (needed by SCAN's trailing-`*` branch) -/

/-- `MapDataTable.ScanPrefix` (named `scanPreficed` here). -/
def MapDataTable.scanPreficed (m : MapDataTable) (pre : String) :
    List (String × V) :=
  m.keys.filterMap (fun key =>
    if strStartsWith key pre then
      match m.getLatestValue key with
      | none => none
      | some v => some (key, v)
    else none)

def BufferStore.scanPreficed (s : BufferStore) (pre : String) :
    List (String × V) :=
  s.flatMap (fun shard => shard.scanPreficed pre)

/-- `ReadPrefixValues` (transaction manager): same merge scheme as
`ReadFilteredValues`. -/
def DBState.readPrefixValues (s : DBState) (t : Nat) (pre : String)
    (conn : Nat) : DBState × Except String (List (String × V)) :=
  let (s₁, isolationLevel) := s.getIsolationLevel t
  match s₁.getStoreByTransactionId t conn with
  | Except.error e => (s₁, Except.error e)
  | Except.ok transactionStore =>
    let result :=
      match transactionStore with
      | some st => st.scanPreficed pre
      | none => []
    if isolationLevel = TXN_ISOLATION_READ_COMMITTED ∨
        isolationLevel = TXN_ISOLATION_REPEATABLE_READ ∨
        isolationLevel = TXN_ISOLATION_SERIALIZABLE then
      let bufferResults := s₁.buffer.scanPreficed pre
      (s₁, Except.ok (result ++ bufferResults.filter
        (fun p => ¬ result.any (fun q => q.1 = p.1))))
    else if isolationLevel = TXN_ISOLATION_SNAPSHOT_ISOLATION then
      match s₁.getTransactionStartGsn t with
      | none =>
        (s₁, Except.error "transaction start GSN not found for snapshot isolation")
      | some startGsn =>
        let allWith := s₁.buffer.scanPreficed pre
        let bufferResults := allWith.filterMap (fun p =>
          match s₁.getVersionAtGsn p.1 startGsn with
          | none => none
          | some v => some (p.1, v))
        (s₁, Except.ok (result ++ bufferResults.filter
          (fun p => ¬ result.any (fun q => q.1 = p.1))))
    else
      (s₁, Except.error ("unknown isolation level: " ++ isolationLevel))

/-! ## Read-echo staging helpers (commands, shared by SCAN/COUNT/RGET) -/

/-- `addReadValueToTxnStore`: stage the read so later reads in RR/SI/SER
repeat it; the staged GSN is the buffer's latest for RR/SER and the start
GSN for SI (zero value when the lookup misses, as the Go code ignores the
second return). -/
def addReadValueToTxnStore (s : DBState) (transactionId : Nat) (key : String)
    (value : V) (isolationLevel : String) (conn : Nat) :
    DBState × Except String Unit :=
  if isolationLevel = TXN_ISOLATION_REPEATABLE_READ ∨
      isolationLevel = TXN_ISOLATION_SNAPSHOT_ISOLATION ∨
      isolationLevel = TXN_ISOLATION_SERIALIZABLE then
    let gsn :=
      if isolationLevel = TXN_ISOLATION_REPEATABLE_READ ∨
          isolationLevel = TXN_ISOLATION_SERIALIZABLE then
        gsnOrZero s.buffer key
      else (s.getTransactionStartGsn transactionId).getD 0
    let row := NewTransactionRow transactionId DB_OP_GET
      TRANSACTION_STATE_QUEUED { key := key, gsn := gsn } none (some value)
    match s.addTransaction row conn with
    | (s', Except.error e) => (s', Except.error e)
    | (s', Except.ok _) => ((s'.addTransactionToWal row).1, Except.ok ())
  else (s, Except.ok ())

/-- `addReadValuesToTxnStoreByAcquiringLocks`. -/
def addReadValuesToTxnStore (s : DBState) (transactionId : Nat)
    (isolationLevel : String) (conn : Nat) :
    List (String × V) → DBState × Except String Unit
  | [] => (s, Except.ok ())
  | (key, value) :: rest =>
    let step :=
      if isolationLevel = TXN_ISOLATION_REPEATABLE_READ then
        s.acquireReadLock transactionId key isolationLevel
      else (s, Except.ok ())
    match step with
    | (s', Except.error e) => (s', Except.error e)
    | (s', Except.ok _) =>
      match addReadValueToTxnStore s' transactionId key value isolationLevel conn with
      | (s'', Except.error e) => (s'', Except.error e)
      | (s'', Except.ok _) =>
        addReadValuesToTxnStore s'' transactionId isolationLevel conn rest

/-! ## SCAN (internal/commands/scan.go) -/

structure ScanArgs where
  pattern : String
  filter : String
  hasFilter : Bool
  isPartOfExistingTransaction : Bool
  transactionId : Nat
  deriving DecidableEq, Repr

def ensureScan (args : List String) (s : DBState) :
    DBState × Except String ScanArgs :=
  if args.length < 1 then
    (s, Except.error "command must have at least one argument - pattern")
  else if args.length > 3 then
    (s, Except.error "command must have at most 3 arguments - pattern, filter, transactionId")
  else
    let pattern := args.getD 0 ""
    if args.length ≥ 2 ∧ strStartsWith (args.getD 1 "") "WHERE" then
      let filter := args.getD 1 ""
      if args.length = 3 then
        match parseUint32 (args.getD 2 "") with
        | none => (s, Except.error "invalid transactionId")
        | some transactionId =>
          if ¬ s.isNewTransactionId transactionId then
            (s, Except.ok ⟨pattern, filter, true, true, transactionId⟩)
          else (s, Except.error "transactionId not allowed")
      else
        let (s₁, transactionId) := s.getNewTransactionId
        (s₁, Except.ok ⟨pattern, filter, true, false, transactionId⟩)
    else if args.length = 2 then
      match parseUint32 (args.getD 1 "") with
      | none => (s, Except.error "invalid transactionId")
      | some transactionId =>
        if ¬ s.isNewTransactionId transactionId then
          (s, Except.ok ⟨pattern, "", false, true, transactionId⟩)
        else (s, Except.error "transactionId not allowed")
    else
      let (s₁, transactionId) := s.getNewTransactionId
      (s₁, Except.ok ⟨pattern, "", false, false, transactionId⟩)

/-- `parseValueFilter` (scan.go): `$value OP operand` with numeric
comparison first for `<`/`>` and quote stripping for equality. -/
def parseValueFilter (expression : String) :
    Except String (String → V → Bool) :=
  let parts := strFields expression
  if parts.length ≠ 3 then Except.error "invalid filter expression format"
  else if parts.getD 0 "" ≠ "$value" then
    Except.error "value filter must start with $value"
  else
    let operator := parts.getD 1 ""
    let operand := parts.getD 2 ""
    Except.ok (fun _ value =>
      if value.type = DataType.typeTombstone then false
      else
        let valueStr := value.value
        if operator = ">" then
          match goParseFloat valueStr, goParseFloat operand with
          | some a, some b => decide (a > b)
          | _, _ => decide (operand < valueStr)
        else if operator = "<" then
          match goParseFloat valueStr, goParseFloat operand with
          | some a, some b => decide (a < b)
          | _, _ => decide (valueStr < operand)
        else if operator = "=" ∨ operator = "==" then
          let operand' :=
            if strStartsWith operand "'" ∧ strEndsWith operand "'" then
              String.mk ((operand.data.drop 1).take (operand.data.length - 2))
            else operand
          valueStr == operand'
        else if operator = "!=" then
          let operand' :=
            if strStartsWith operand "'" ∧ strEndsWith operand "'" then
              String.mk ((operand.data.drop 1).take (operand.data.length - 2))
            else operand
          valueStr ≠ operand'
        else false)

/-- `parseKeyFilter` (scan.go): a stub that only drops tombstones. -/
def parseKeyFilterFn : Except String (String → V → Bool) :=
  Except.ok (fun _ value => value.type ≠ DataType.typeTombstone)

/-- `parseFilterExpression` (scan.go). -/
def parseFilterExpression (filter : String) :
    Except String (String → V → Bool) :=
  if ¬ strStartsWith filter "WHERE " then
    Except.error "filter must start with 'WHERE '"
  else
    let expression := goTrimOnePre filter "WHERE "
    if strContains expression "$value" then parseValueFilter expression
    else parseKeyFilterFn

/-- The current `execScan`: a trailing `*` is a prefix scan under a range
lock; any other pattern is a full scan keeping the keys that CONTAIN the
pattern string, under a predicate lock — the §4.9 condition parser is never
invoked here. -/
def execScan (scanArgs : ScanArgs) (conn : Nat) (s : DBState) :
    DBState × Except String String :=
  let transactionId := scanArgs.transactionId
  let (s₁, isolationLevel) := s.getIsolationLevel transactionId
  let locked :=
    if strEndsWith scanArgs.pattern "*" then
      let pre := goTrimOneSuffix scanArgs.pattern "*"
      let endKey := pre ++ "ÿ"
      s₁.acquireRangeLock transactionId pre endKey
    else
      let predicate := "key LIKE '" ++ scanArgs.pattern ++ "'"
      s₁.acquirePredicateLock transactionId predicate
  match locked with
  | (s₂, Except.error e) =>
    (s₂.clearTransactionStore transactionId, Except.error e)
  | (s₂, Except.ok _) =>
    let filterLocked :=
      if scanArgs.hasFilter then
        s₂.acquirePredicateLock transactionId scanArgs.filter
      else (s₂, Except.ok ())
    match filterLocked with
    | (s₃, Except.error e) =>
      (s₃.clearTransactionStore transactionId, Except.error e)
    | (s₃, Except.ok _) =>
      let scanned :=
        if strEndsWith scanArgs.pattern "*" then
          let pre := goTrimOneSuffix scanArgs.pattern "*"
          s₃.readPrefixValues transactionId pre conn
        else
          s₃.readFilteredValues transactionId
            (fun key _ => strContains key scanArgs.pattern) conn
      match scanned with
      | (s₄, Except.error e) =>
        (s₄.clearTransactionStore transactionId, Except.error e)
      | (s₄, Except.ok results) =>
        match addReadValuesToTxnStore s₄ transactionId isolationLevel conn
            results with
        | (s₅, Except.error e) =>
          (s₅.clearTransactionStore transactionId, Except.error e)
        | (s₅, Except.ok _) =>
          let filtered :=
            if scanArgs.hasFilter then
              match parseFilterExpression scanArgs.filter with
              | Except.error e => Except.error e
              | Except.ok filterFunc =>
                Except.ok (results.filter (fun p => filterFunc p.1 p.2))
            else Except.ok results
          match filtered with
          | Except.error e =>
            (s₅.clearTransactionStore transactionId, Except.error e)
          | Except.ok results' =>
            let jsonResults := (results'.filter
              (fun p => p.2.type ≠ DataType.typeTombstone)).map
              (fun p => (p.1, p.2.value))
            (s₅, Except.ok (jsonMarshalObj jsonResults))

/-! ## Condition expressions (internal/parser, part of the SCAN/COUNT
grammar); `Evaluate` is the function claim C9 is about. -/

inductive TokenType where
  | field
  | stringLit
  | number
  | equal
  | notEqual
  | less
  | lessEqual
  | greater
  | greaterEqual
  | like
  | andOp
  | orOp
  | notOp
  | leftParen
  | rightParen
  | eofTok
  | invalid
  deriving DecidableEq, Repr

/-- The expression AST produced by the condition parser: comparisons,
NOT, and AND/OR nodes. -/
inductive Expression where
  | comparison (field : String) (operator : TokenType) (value : String)
  | unary (operator : TokenType) (operand : Expression)
  | binary (lhs : Expression) (operator : TokenType) (rhs : Expression)
  deriving DecidableEq, Repr

/-- Numeric-first ordering comparison used by `ComparisonExpression.Evaluate`
for `< <= > >=`: both sides parse as numbers → numeric, else Go string
order. -/
def cmpNumThen (leftValue rightValue : String)
    (numCmp : Rat → Rat → Bool) (strCmp : String → String → Bool) : Bool :=
  match goParseFloat leftValue, goParseFloat rightValue with
  | some a, some b => numCmp a b
  | _, _ => strCmp leftValue rightValue

/-- `ComparisonExpression.Evaluate` together with the `Unary`/`Binary`
evaluators: nil or tombstone values always fail; the field resolves to the
record key for `$key`/`key`/`key_name`, to the payload for
`$value`/`value`, and silently falls back to the key otherwise. -/
def Expression.evaluate : Expression → String → Option V → Bool
  | Expression.binary lhs op rhs, key, value =>
    match op with
    | TokenType.andOp => lhs.evaluate key value && rhs.evaluate key value
    | TokenType.orOp => lhs.evaluate key value || rhs.evaluate key value
    | _ => false
  | Expression.unary op operand, key, value =>
    match op with
    | TokenType.notOp => ! operand.evaluate key value
    | _ => false
  | Expression.comparison field op rightValue, key, value =>
    match value with
    | none => false
    | some v =>
      if v.type = DataType.typeTombstone then false
      else
        let leftValue :=
          if field = "$key" ∨ field = "key" ∨ field = "key_name" then key
          else if field = "$value" ∨ field = "value" then v.value
          else key
        match op with
        | TokenType.equal => leftValue == rightValue
        | TokenType.notEqual => leftValue ≠ rightValue
        | TokenType.less =>
          cmpNumThen leftValue rightValue (fun a b => decide (a < b))
            (fun a b => decide (a < b))
        | TokenType.lessEqual =>
          cmpNumThen leftValue rightValue (fun a b => decide (a ≤ b))
            (fun a b => decide (a ≤ b))
        | TokenType.greater =>
          cmpNumThen leftValue rightValue (fun a b => decide (a > b))
            (fun a b => decide (a > b))
        | TokenType.greaterEqual =>
          cmpNumThen leftValue rightValue (fun a b => decide (a ≥ b))
            (fun a b => decide (a ≥ b))
        | TokenType.like =>
          if strEndsWith rightValue "%" ∧ strStartsWith rightValue "%" then
            strContains leftValue (goTrimPercent rightValue)
          else if strEndsWith rightValue "%" then
            strStartsWith leftValue (goTrimOneSuffix rightValue "%")
          else if strStartsWith rightValue "%" then
            strEndsWith leftValue (goTrimOnePre rightValue "%")
          else leftValue == rightValue
        | _ => false

/-- The `Register` wrapper of command.go: validate the arguments, then
execute. -/
def runCommand {I : Type}
    (ensure : List String → DBState → DBState × Except String I)
    (exec : I → Nat → DBState → DBState × Except String String)
    (args : List String) (conn : Nat) (s : DBState) :
    DBState × Except String String :=
  match ensure args s with
  | (s', Except.error e) => (s', Except.error e)
  | (s', Except.ok a) => exec a conn s'

def putCommand : List String → Nat → DBState → DBState × Except String String :=
  runCommand ensurePut execPut

def getCommand : List String → Nat → DBState → DBState × Except String String :=
  runCommand ensureGet execGet

def deleteCommand : List String → Nat → DBState → DBState × Except String String :=
  runCommand ensureDelete execDelete

def scanCommand : List String → Nat → DBState → DBState × Except String String :=
  runCommand ensureScan execScan

def beginCommand (args : List String) (conn : Nat) (s : DBState) :
    DBState × Except String String :=
  match ensureBegin args with
  | Except.error e => (s, Except.error e)
  | Except.ok lvl => execBegin lvl conn s

def commitCommand (args : List String) (conn : Nat) (s : DBState) :
    DBState × Except String String :=
  match ensureCommit args with
  | Except.error e => (s, Except.error e)
  | Except.ok transactionId => execCommit transactionId conn s

/-! ## Concrete scenario states used by the claim checks -/

/-- After `BEGIN` (→ txn 1) on a fresh database. -/
def c1AfterBegin : DBState := (beginCommand [] 0 initState).1

/-- … then `PUT k 1 1`. -/
def c1AfterPut : DBState := (putCommand ["k", "1", "1"] 0 c1AfterBegin).1

/-- `PUT user_a x; PUT user_b y; PUT admin z` on a fresh database. -/
def c7Loaded : DBState :=
  (putCommand ["admin", "z"] 0
    (putCommand ["user_b", "y"] 0
      (putCommand ["user_a", "x"] 0 initState).1).1).1

/-- `PUT k a` on a fresh database. -/
def c8Loaded : DBState := (putCommand ["k", "a"] 0 initState).1

/-- … then `BEGIN SNAPSHOT_ISOLATION` (→ txn 2). -/
def c8AfterBegin : DBState :=
  (beginCommand [TXN_ISOLATION_SNAPSHOT_ISOLATION] 0 c8Loaded).1

/-- … then `GET k 2` (the snapshot transaction reads k). -/
def c8AfterGet : DBState := (getCommand ["k", "2"] 0 c8AfterBegin).1

/-- … then an auto-commit `PUT k b` by another client. -/
def c8AfterPut : DBState := (putCommand ["k", "b"] 0 c8AfterGet).1

/-- `PUT k 1` on a fresh database, then `BEGIN SNAPSHOT_ISOLATION` (→ txn 2,
start GSN 3). -/
def c2Loaded : DBState :=
  (beginCommand [TXN_ISOLATION_SNAPSHOT_ISOLATION] 0
    (putCommand ["k", "1"] 0 initState).1).1

/-- `PUT k a` on a fresh database, then `BEGIN REPEATABLE_READ` (→ txn 2). -/
def c5rrAfterBegin : DBState :=
  (beginCommand [TXN_ISOLATION_REPEATABLE_READ] 0 c8Loaded).1

/-- … then `GET k 2` (the repeatable-read transaction reads `k`). -/
def c5rrAfterGet : DBState := (getCommand ["k", "2"] 0 c5rrAfterBegin).1

/-- The version chain a store holds for a key (the inner map of the key's
shard), used to state invariants about staged entries. -/
def stagedVersions (st : BufferStore) (k : String) : GsnMap :=
  ((st.shard k).find k).getD []

/-! # Lemmas

First a toolbox about the association-list map model, then the claim
theorems. -/

theorem foldl_max_init (l : List (Nat × Option V)) (a : Nat) :
    List.foldl (fun acc p => Nat.max acc p.1) a l =
      Nat.max a (List.foldl (fun acc p => Nat.max acc p.1) 0 l) := by
  induction l generalizing a with
  | nil => simp
  | cons q t ih =>
    simp only [List.foldl_cons]
    rw [ih (Nat.max a q.1), ih (Nat.max 0 q.1)]
    simp [Nat.max_assoc, Nat.zero_max]

theorem maxGsn_cons (p : Nat × Option V) (l : GsnMap) :
    GsnMap.maxGsn (p :: l) = Nat.max p.1 (GsnMap.maxGsn l) := by
  unfold GsnMap.maxGsn
  simp only [List.foldl_cons]
  rw [foldl_max_init l (Nat.max 0 p.1)]
  simp [Nat.zero_max]

theorem le_maxGsn (gm : GsnMap) (p : Nat × Option V) :
    p ∈ gm → p.1 ≤ gm.maxGsn := by
  induction gm with
  | nil => intro hp; cases hp
  | cons q t ih =>
    intro hp
    rw [maxGsn_cons]
    rcases List.mem_cons.mp hp with h | h
    · subst h; exact Nat.le_max_left _ _
    · exact le_trans (ih h) (Nat.le_max_right _ _)

theorem maxGsn_le (gm : GsnMap) (c : Nat) (h : ∀ p ∈ gm, p.1 ≤ c) :
    gm.maxGsn ≤ c := by
  induction gm with
  | nil => simp [GsnMap.maxGsn]
  | cons q t ih =>
    rw [maxGsn_cons]
    exact Nat.max_le.mpr ⟨h q (by simp), ih (fun p hp => h p (by simp [hp]))⟩

/-- A key-preserving map commutes with `find?` on a key predicate. -/
theorem find?_map_keyfixed {α β : Type} (l : List (Nat × α))
    (f : Nat × α → Nat × β) (hf : ∀ p, (f p).1 = p.1) (c : Nat) :
    (l.map f).find? (fun p => p.1 = c) =
      (l.find? (fun p => p.1 = c)).map f := by
  induction l with
  | nil => simp
  | cons q t ih =>
    by_cases hq : q.1 = c
    · simp [List.find?_cons, hf, hq]
    · simp [List.find?_cons, hf, hq, ih]

theorem maxGsn_map_keyfixed (gm : GsnMap) (f : Nat × Option V → Nat × Option V)
    (hf : ∀ p, (f p).1 = p.1) : GsnMap.maxGsn (gm.map f) = gm.maxGsn := by
  induction gm with
  | nil => rfl
  | cons q t ih => rw [List.map_cons, maxGsn_cons, maxGsn_cons, hf, ih]

theorem maxGsn_pair_cons (a : Nat) (w : Option V) (l : GsnMap) :
    GsnMap.maxGsn ((a, w) :: l) = Nat.max a (GsnMap.maxGsn l) := by
  rw [maxGsn_cons]

theorem natMax_eq_left {a b : Nat} (h : b ≤ a) : Nat.max a b = a :=
  Nat.max_eq_left h

theorem natMax_eq_right {a b : Nat} (h : a ≤ b) : Nat.max a b = b :=
  Nat.max_eq_right h

theorem exists_key_eq_maxGsn (gm : GsnMap) (hne : gm ≠ []) :
    ∃ p ∈ gm, p.1 = gm.maxGsn := by
  induction gm with
  | nil => exact absurd rfl hne
  | cons q t ih =>
    rw [maxGsn_cons]
    by_cases ht : t = []
    · subst ht
      exact ⟨q, by simp, by simp [GsnMap.maxGsn]⟩
    · obtain ⟨p, hp, hpk⟩ := ih ht
      rcases Nat.le_total q.1 (GsnMap.maxGsn t) with hle | hle
      · refine ⟨p, by simp [hp], ?_⟩
        rw [hpk, natMax_eq_right hle]
      · refine ⟨q, by simp, ?_⟩
        rw [natMax_eq_left hle]

/-- The upsert-as-map function is key-preserving. -/
theorem upsert_fun_keyfixed (g : Nat) (w : Option V) :
    ∀ p : Nat × Option V,
      ((fun p => if p.1 = g then (g, w) else p) p).1 = p.1 := by
  intro p
  by_cases h : p.1 = g <;> simp [h]

theorem upsert_eq_map (gm : GsnMap) (g : Nat) (w : Option V)
    (hocc : gm.any (fun p => p.1 = g) = true) :
    gm.upsert g w = gm.map (fun p => if p.1 = g then (g, w) else p) := by
  simp [GsnMap.upsert, hocc]

theorem upsert_eq_cons (gm : GsnMap) (g : Nat) (w : Option V)
    (hocc : gm.any (fun p => p.1 = g) = false) :
    gm.upsert g w = (g, w) :: gm := by
  simp [GsnMap.upsert, hocc]

/-- Inserting the value the chain already reports at its top keeps that
report (covers fresh keys, overwrite at the top and overwrite below it). -/
theorem atMax_upsert_self (gm : GsnMap) (g : Nat) (w : Option V)
    (h : gm.atMax = w) : (gm.upsert g w).atMax = w := by
  by_cases hocc : gm.any (fun p => p.1 = g) = true
  · rw [upsert_eq_map gm g w hocc]
    unfold GsnMap.atMax at h ⊢
    rw [maxGsn_map_keyfixed gm _ (upsert_fun_keyfixed g w),
      find?_map_keyfixed gm _ (upsert_fun_keyfixed g w)]
    cases hfind : gm.find? (fun p => p.1 = gm.maxGsn) with
    | none =>
      rw [hfind] at h
      simpa using h
    | some p₀ =>
      rw [hfind] at h
      by_cases hpg : p₀.1 = g <;> simp_all
  · have hocc' : gm.any (fun p => p.1 = g) = false := by
      rwa [Bool.not_eq_true] at hocc
    rw [upsert_eq_cons gm g w hocc']
    unfold GsnMap.atMax at h ⊢
    rw [maxGsn_pair_cons]
    rcases Nat.le_total (GsnMap.maxGsn gm) g with hle | hle
    · rw [natMax_eq_left hle]
      simp [List.find?_cons]
    · rcases Nat.eq_or_lt_of_le hle with heq | hlt
      · rw [← heq, natMax_eq_left (Nat.le_refl g)]
        simp [List.find?_cons]
      · rw [natMax_eq_right hle, List.find?_cons]
        have hne : (decide ((g, w).1 = GsnMap.maxGsn gm)) = false := by
          simp only [decide_eq_false_iff_not]
          intro hc
          have hc' : g = GsnMap.maxGsn gm := hc
          omega
        rw [hne]
        exact h

/-- Inserting a fresh top version makes it the reported latest, provided
every nil-valued staged version sits at or below the inserted GSN. -/
theorem atMax_upsert_top (gm : GsnMap) (g : Nat) (v : V)
    (htop : gm.atMax = none)
    (hnil : ∀ p ∈ gm, p.2 = none → p.1 ≤ g) :
    (gm.upsert g (some v)).atMax = some v := by
  by_cases hne : gm = []
  · subst hne
    simp [GsnMap.upsert, GsnMap.atMax, GsnMap.maxGsn]
  · obtain ⟨pm, hpm, hpmk⟩ := exists_key_eq_maxGsn gm hne
    have hsome : (gm.find? (fun p => p.1 = GsnMap.maxGsn gm)).isSome := by
      rw [List.find?_isSome]
      exact ⟨pm, hpm, by simp [hpmk]⟩
    obtain ⟨p₀, hfind⟩ := Option.isSome_iff_exists.mp hsome
    have hp₀k : p₀.1 = GsnMap.maxGsn gm := by
      simpa using List.find?_some hfind
    have hp₀m : p₀ ∈ gm := List.mem_of_find?_eq_some hfind
    have hp₀v : p₀.2 = none := by
      unfold GsnMap.atMax at htop
      rw [hfind] at htop
      exact htop
    have hMle : GsnMap.maxGsn gm ≤ g := hp₀k ▸ hnil p₀ hp₀m hp₀v
    by_cases hocc : gm.any (fun p => p.1 = g) = true
    · have hgle : g ≤ GsnMap.maxGsn gm := by
        rcases List.any_eq_true.mp hocc with ⟨p, hp, hpg⟩
        have := le_maxGsn gm p hp
        simp only [decide_eq_true_eq] at hpg
        omega
      have hgeq : g = GsnMap.maxGsn gm := Nat.le_antisymm hgle hMle
      rw [upsert_eq_map gm g (some v) hocc]
      unfold GsnMap.atMax
      rw [maxGsn_map_keyfixed gm _ (upsert_fun_keyfixed g (some v)),
        find?_map_keyfixed gm _ (upsert_fun_keyfixed g (some v)), hfind]
      simp [hp₀k, hgeq]
    · have hocc' : gm.any (fun p => p.1 = g) = false := by
        rwa [Bool.not_eq_true] at hocc
      rw [upsert_eq_cons gm g (some v) hocc']
      unfold GsnMap.atMax
      rw [maxGsn_pair_cons, natMax_eq_left hMle]
      simp [List.find?_cons]

/-- Inserting a strictly newer version than everything staged makes it the
reported latest, whatever it is. -/
theorem atMax_upsert_fresh (gm : GsnMap) (g : Nat) (w : Option V)
    (hfresh : ∀ p ∈ gm, p.1 < g) :
    (gm.upsert g w).atMax = w := by
  have hocc : gm.any (fun p => p.1 = g) = false := by
    rw [List.any_eq_false]
    intro p hp
    have := hfresh p hp
    simp only [decide_eq_true_eq]
    omega
  have hMle : GsnMap.maxGsn gm ≤ g :=
    maxGsn_le gm g (fun p hp => Nat.le_of_lt (hfresh p hp))
  rw [upsert_eq_cons gm g w hocc]
  unfold GsnMap.atMax
  rw [maxGsn_pair_cons, natMax_eq_left hMle]
  simp [List.find?_cons]

/-! ### Association-list and shard-list utilities -/

theorem find?_map_keyfixed_gen {κ α β : Type} [DecidableEq κ]
    (l : List (κ × α)) (f : κ × α → κ × β) (hf : ∀ p, (f p).1 = p.1) (c : κ) :
    (l.map f).find? (fun p => p.1 = c) =
      (l.find? (fun p => p.1 = c)).map f := by
  induction l with
  | nil => simp
  | cons q t ih =>
    by_cases hq : q.1 = c
    · simp [List.find?_cons, hf, hq]
    · simp [List.find?_cons, hf, hq, ih]

theorem natListUpsert_find_self {α : Type} (l : List (Nat × α)) (t : Nat)
    (x : α) :
    (natListUpsert l t x).find? (fun p => p.1 = t) = some (t, x) := by
  unfold natListUpsert
  by_cases hocc : l.any (fun p => p.1 = t) = true
  · simp only [hocc, if_true]
    have hf : ∀ p : Nat × α,
        ((fun p => if p.1 = t then (t, x) else p) p).1 = p.1 := by
      intro p
      by_cases h : p.1 = t <;> simp [h]
    rw [find?_map_keyfixed_gen l _ hf]
    have hsome : (l.find? (fun p => p.1 = t)).isSome := by
      rw [List.find?_isSome]
      rcases List.any_eq_true.mp hocc with ⟨p, hp, hpt⟩
      exact ⟨p, hp, hpt⟩
    obtain ⟨p₀, hfind⟩ := Option.isSome_iff_exists.mp hsome
    have hp₀ : p₀.1 = t := by simpa using List.find?_some hfind
    rw [hfind]
    simp [hp₀]
  · have hocc' : l.any (fun p => p.1 = t) = false := by
      rwa [Bool.not_eq_true] at hocc
    simp [hocc', List.find?_cons]

theorem natListUpsert_any_self {α : Type} (l : List (Nat × α)) (t : Nat)
    (x : α) : (natListUpsert l t x).any (fun p => p.1 = t) = true := by
  rw [List.any_eq_true]
  have := natListUpsert_find_self l t x
  exact ⟨(t, x), List.mem_of_find?_eq_some this, by simp⟩

theorem getD_set_self {α : Type} (l : List α) (i : Nat) (x d : α)
    (h : i < l.length) : (l.set i x).getD i d = x := by
  induction l generalizing i with
  | nil => simp at h
  | cons a t ih =>
    cases i with
    | zero => simp
    | succ j =>
      simp only [List.set_cons_succ, List.getD_cons_succ]
      exact ih j (by simpa using h)

/-! ### MapDataTable lemmas -/

theorem mdt_put_find_self (m : MapDataTable) (k : K) (w : Option V) :
    (m.put k w).find k.key =
      some (GsnMap.upsert ((m.find k.key).getD []) k.gsn w) := by
  unfold MapDataTable.put
  by_cases hocc : m.any (fun p => p.1 = k.key) = true
  · simp only [hocc, if_true]
    unfold MapDataTable.find
    have hf : ∀ p : String × GsnMap,
        ((fun p => if p.1 = k.key then (p.1, GsnMap.upsert p.2 k.gsn w) else p) p).1
          = p.1 := by
      intro p
      by_cases h : p.1 = k.key <;> simp [h]
    rw [find?_map_keyfixed_gen m _ hf]
    have hsome : (m.find? (fun p => p.1 = k.key)).isSome := by
      rw [List.find?_isSome]
      rcases List.any_eq_true.mp hocc with ⟨p, hp, hpt⟩
      exact ⟨p, hp, hpt⟩
    obtain ⟨p₀, hfind⟩ := Option.isSome_iff_exists.mp hsome
    have hp₀ : p₀.1 = k.key := by simpa using List.find?_some hfind
    rw [hfind]
    simp [hp₀]
  · have hocc' : m.any (fun p => p.1 = k.key) = false := by
      rwa [Bool.not_eq_true] at hocc
    simp only [hocc', Bool.false_eq_true, if_false]
    unfold MapDataTable.find
    have hnone : m.find? (fun p => p.1 = k.key) = none := by
      rw [List.find?_eq_none]
      intro p hp
      have := List.any_eq_false.mp hocc' p hp
      simpa using this
    simp [List.find?_cons, hnone, GsnMap.upsert]

theorem mdt_get_put_self (m : MapDataTable) (k : K) (w : Option V)
    (h : m.get k.key = w) : (m.put k w).get k.key = w := by
  unfold MapDataTable.get at h ⊢
  rw [mdt_put_find_self]
  cases hfind : m.find k.key with
  | none =>
    rw [hfind] at h
    exact atMax_upsert_self [] k.gsn w (by simpa using h.symm ▸ rfl)
  | some gm₀ =>
    rw [hfind] at h
    exact atMax_upsert_self gm₀ k.gsn w h

theorem mdt_get_put_top (m : MapDataTable) (k : K) (v : V)
    (htop : m.get k.key = none)
    (hnil : ∀ p ∈ (m.find k.key).getD [], p.2 = none → p.1 ≤ k.gsn) :
    (m.put k (some v)).get k.key = some v := by
  unfold MapDataTable.get at htop ⊢
  rw [mdt_put_find_self]
  cases hfind : m.find k.key with
  | none =>
    simpa using atMax_upsert_top [] k.gsn v rfl (by simp)
  | some gm₀ =>
    rw [hfind] at htop hnil
    exact atMax_upsert_top gm₀ k.gsn v htop (by simpa using hnil)

theorem mdt_get_put_fresh (m : MapDataTable) (k : K) (w : Option V)
    (hfresh : ∀ p ∈ (m.find k.key).getD [], p.1 < k.gsn) :
    (m.put k w).get k.key = w := by
  unfold MapDataTable.get
  rw [mdt_put_find_self]
  cases hfind : m.find k.key with
  | none =>
    simpa using atMax_upsert_fresh [] k.gsn w (by simp)
  | some gm₀ =>
    rw [hfind] at hfresh
    exact atMax_upsert_fresh gm₀ k.gsn w (by simpa using hfresh)

/-! ### BufferStore lemmas -/

theorem bs_put_length (s : BufferStore) (k : K) (w : Option V) :
    (s.put k w).length = s.length := by
  unfold BufferStore.put
  simp

theorem shardIndex_lt (key : String) : shardIndex key < NUMBER_OF_SHARDS :=
  Nat.mod_lt _ (by simp [NUMBER_OF_SHARDS])

theorem bs_shard_put_self (s : BufferStore) (k : K) (w : Option V)
    (hlen : s.length = NUMBER_OF_SHARDS) :
    (s.put k w).shard k.key = (s.shard k.key).put k w := by
  unfold BufferStore.put BufferStore.shard
  exact getD_set_self s (shardIndex k.key) _ _ (hlen ▸ shardIndex_lt k.key)

theorem bs_get_put_self (s : BufferStore) (k : K) (w : Option V)
    (hlen : s.length = NUMBER_OF_SHARDS) (h : s.get k.key = w) :
    (s.put k w).get k.key = w := by
  unfold BufferStore.get at h ⊢
  rw [bs_shard_put_self s k w hlen]
  exact mdt_get_put_self _ k w h

theorem bs_get_put_top (s : BufferStore) (k : K) (v : V)
    (hlen : s.length = NUMBER_OF_SHARDS) (htop : s.get k.key = none)
    (hnil : ∀ p ∈ stagedVersions s k.key, p.2 = none → p.1 ≤ k.gsn) :
    (s.put k (some v)).get k.key = some v := by
  unfold BufferStore.get at htop ⊢
  unfold stagedVersions at hnil
  rw [bs_shard_put_self s k (some v) hlen]
  exact mdt_get_put_top _ k v htop hnil

theorem bs_get_put_fresh (s : BufferStore) (k : K) (w : Option V)
    (hlen : s.length = NUMBER_OF_SHARDS)
    (hfresh : ∀ p ∈ stagedVersions s k.key, p.1 < k.gsn) :
    (s.put k w).get k.key = w := by
  unfold BufferStore.get
  unfold stagedVersions at hfresh
  rw [bs_shard_put_self s k w hlen]
  exact mdt_get_put_fresh _ k w hfresh



theorem find?_eq_none_of_any_eq_false {α : Type} (l : List (Nat × α))
    (t : Nat) (h : l.any (fun p => p.1 = t) = false) :
    l.find? (fun p => p.1 = t) = none := by
  rw [List.find?_eq_none]
  intro p hp
  simpa using List.any_eq_false.mp h p hp

theorem natListUpsert_eq_cons {α : Type} (l : List (Nat × α)) (t : Nat)
    (x : α) (h : l.any (fun p => p.1 = t) = false) :
    natListUpsert l t x = (t, x) :: l := by
  simp [natListUpsert, h]

theorem shardIndex_TypeKeyNull : shardIndex TypeKeyNull = 3 := by decide

/-- The staging store right after BEGIN: one null-key row holding nil. -/
theorem nullStagedStore_keys (g : Nat) :
    (NewBufferStore.put { key := TypeKeyNull, gsn := g } none).keys =
      [TypeKeyNull] := by
  simp [BufferStore.put, BufferStore.shard, BufferStore.keys,
    shardIndex_TypeKeyNull, NewBufferStore, NUMBER_OF_SHARDS, List.replicate,
    MapDataTable.put, MapDataTable.empty, MapDataTable.keys]

theorem nullStagedStore_get (g : Nat) :
    (NewBufferStore.put { key := TypeKeyNull, gsn := g } none).get TypeKeyNull =
      none := by
  exact bs_get_put_fresh NewBufferStore { key := TypeKeyNull, gsn := g } none
    (by simp [NewBufferStore, NUMBER_OF_SHARDS])
    (by
      intro p hp
      have hp' : p ∈ stagedVersions NewBufferStore TypeKeyNull := hp
      simp [stagedVersions, BufferStore.shard, shardIndex_TypeKeyNull,
        NewBufferStore, NUMBER_OF_SHARDS, List.replicate, MapDataTable.find,
        MapDataTable.empty] at hp')

/-! # Claim theorems -/

/-- C1 (failing-input evaluation): on a fresh database, `BEGIN` yields
transaction 1, `PUT k 1 1` is queued, and `COMMIT 1` — although `k` has no
committed version at all — fails with the buffer store's "key not found"
error instead of succeeding, and nothing is applied to the table (a plain
`GET k` afterwards still answers `-1`). -/
theorem commitOfFreshKeyFails :
    (beginCommand [] 0 initState).2 = Except.ok "1" ∧
    (putCommand ["k", "1", "1"] 0 c1AfterBegin).2 = Except.ok "QUEUED" ∧
    (commitCommand ["1"] 0 c1AfterPut).2 = Except.error "key not found" ∧
    (commitCommand ["1"] 0 c1AfterPut).1.buffer = initState.buffer ∧
    (getCommand ["k"] 0 (commitCommand ["1"] 0 c1AfterPut).1).2 =
      Except.ok "-1" := by
  refine ⟨by decide, by decide, by decide, by decide, by decide⟩

/-- C9 (failing-input evaluation): a comparison whose field name `foo` is
none of `$key/key/key_name/$value/value` evaluates without any error by
silently substituting the record key: on key `a` it behaves exactly like a
`$key` comparison (true on key `a`, false on key `b`). -/
theorem unknownFieldComparisonUsesKey :
    (Expression.comparison "foo" TokenType.equal "a").evaluate "a"
        (some { type := DataType.typeString, value := "x" }) = true ∧
    (Expression.comparison "foo" TokenType.equal "a").evaluate "b"
        (some { type := DataType.typeString, value := "x" }) = false ∧
    ((Expression.comparison "foo" TokenType.equal "a").evaluate "a"
        (some { type := DataType.typeString, value := "x" }) =
      (Expression.comparison "$key" TokenType.equal "a").evaluate "a"
        (some { type := DataType.typeString, value := "x" })) := by
  refine ⟨by decide, by decide, by decide⟩

/-- C7 (failing-input evaluation): with committed entries
user_a→x, user_b→y, admin→z, the command `SCAN "$key LIKE 'user_%'"` does
not evaluate the §4.9 predicate grammar: it matches keys that contain the
whole condition string, so it answers the empty object rather than
\x7b"user_a":"x","user_b":"y"\x7d. -/
theorem scanConditionIsNotEvaluated :
    (putCommand ["user_a", "x"] 0 initState).2 = Except.ok "OK" ∧
    (scanCommand ["$key LIKE 'user_%'"] 0 c7Loaded).2 =
      Except.ok "\x7b\x7d" ∧
    (scanCommand ["$key LIKE 'user_%'"] 0 c7Loaded).2 ≠
      Except.ok "\x7b\"user_a\":\"x\",\"user_b\":\"y\"\x7d" := by
  refine ⟨by decide, by decide, by decide⟩

/-- C8 (counterexample): transaction 2 runs under SNAPSHOT_ISOLATION and
performs only a GET of k (its WAL rows are only BEGIN and GET); after
another client auto-commits a different value for k, `COMMIT 2` fails with
the write-write conflict error — a read-only snapshot transaction can fail
its commit with a write conflict. -/
theorem readOnlySiCommitHitsWriteConflict :
    (beginCommand [TXN_ISOLATION_SNAPSHOT_ISOLATION] 0 c8Loaded).2 =
      Except.ok "2" ∧
    (getCommand ["k", "2"] 0 c8AfterBegin).2 = Except.ok "a" ∧
    (putCommand ["k", "b"] 0 c8AfterGet).2 = Except.ok "OK" ∧
    ((c8AfterPut.wal.filter (fun r => r.transactionId = 2)).all
      (fun r => r.operation = DB_OP_BEGIN ∨ r.operation = DB_OP_GET)) = true ∧
    (commitCommand ["2"] 0 c8AfterPut).2 =
      Except.error
        "write-write conflict detected - another transaction committed first for key: k" := by
  refine ⟨by decide, by decide, by decide, by decide, by decide⟩

/-- `execBegin` on a fresh transaction id reports the new id. -/
theorem execBegin_snd (s : DBState) (lvl : String) (conn : Nat)
    (hiso : s.isoLevels.find? (fun p => p.1 = s.currentTransactionId + 1) =
      none)
    (hstore : s.stores.any (fun p => p.1 = s.currentTransactionId + 1) =
      false) :
    (execBegin lvl conn s).2 =
      Except.ok (toString (s.currentTransactionId + 1)) := by
  have hfs := find?_eq_none_of_any_eq_false s.stores
    (s.currentTransactionId + 1) hstore
  rcases hfind : s.connTxns.find? (fun p => p.1 = conn) with _ | q
  · by_cases hsi : lvl = TXN_ISOLATION_SNAPSHOT_ISOLATION <;>
      simp [execBegin, DBState.getNewTransactionId, DBState.ensureIsolationLevel,
        hiso, DBState.getNewGsn, DBState.setTransactionStartGsn,
        DBState.addTransaction, DBState.isAllowedForConn,
        DBState.isNewTransactionId, hstore, hfs, DBState.registerForConn,
        DBState.connIds, hfind, DBState.getTransactionStore,
        DBState.addTransactionToWal, hsi, NewTransactionRow]
  · by_cases hm : (s.currentTransactionId + 1) ∈ q.2 <;>
      by_cases hsi : lvl = TXN_ISOLATION_SNAPSHOT_ISOLATION <;>
      simp [execBegin, DBState.getNewTransactionId, DBState.ensureIsolationLevel,
        hiso, DBState.getNewGsn, DBState.setTransactionStartGsn,
        DBState.addTransaction, DBState.isAllowedForConn,
        DBState.isNewTransactionId, hstore, hfs, DBState.registerForConn,
        DBState.connIds, hfind, hm, DBState.getTransactionStore,
        DBState.addTransactionToWal, hsi, NewTransactionRow]

/-- `execBegin` never touches the committed buffer store. -/
theorem execBegin_buffer (s : DBState) (lvl : String) (conn : Nat)
    (hiso : s.isoLevels.find? (fun p => p.1 = s.currentTransactionId + 1) =
      none)
    (hstore : s.stores.any (fun p => p.1 = s.currentTransactionId + 1) =
      false) :
    (execBegin lvl conn s).1.buffer = s.buffer := by
  have hfs := find?_eq_none_of_any_eq_false s.stores
    (s.currentTransactionId + 1) hstore
  rcases hfind : s.connTxns.find? (fun p => p.1 = conn) with _ | q
  · by_cases hsi : lvl = TXN_ISOLATION_SNAPSHOT_ISOLATION <;>
      simp [execBegin, DBState.getNewTransactionId, DBState.ensureIsolationLevel,
        hiso, DBState.getNewGsn, DBState.setTransactionStartGsn,
        DBState.addTransaction, DBState.isAllowedForConn,
        DBState.isNewTransactionId, hstore, hfs, DBState.registerForConn,
        DBState.connIds, hfind, DBState.getTransactionStore,
        DBState.addTransactionToWal, hsi, NewTransactionRow]
  · by_cases hm : (s.currentTransactionId + 1) ∈ q.2 <;>
      by_cases hsi : lvl = TXN_ISOLATION_SNAPSHOT_ISOLATION <;>
      simp [execBegin, DBState.getNewTransactionId, DBState.ensureIsolationLevel,
        hiso, DBState.getNewGsn, DBState.setTransactionStartGsn,
        DBState.addTransaction, DBState.isAllowedForConn,
        DBState.isNewTransactionId, hstore, hfs, DBState.registerForConn,
        DBState.connIds, hfind, hm, DBState.getTransactionStore,
        DBState.addTransactionToWal, hsi, NewTransactionRow]

/-- After `execBegin`, the new transaction's staging store holds exactly the
nil-valued null-key row. -/
theorem execBegin_stores (s : DBState) (lvl : String) (conn : Nat)
    (hiso : s.isoLevels.find? (fun p => p.1 = s.currentTransactionId + 1) =
      none)
    (hstore : s.stores.any (fun p => p.1 = s.currentTransactionId + 1) =
      false) :
    (execBegin lvl conn s).1.stores =
      natListUpsert s.stores (s.currentTransactionId + 1)
        (NewBufferStore.put { key := TypeKeyNull, gsn := s.currentGsn + 1 }
          none) := by
  have hfs := find?_eq_none_of_any_eq_false s.stores
    (s.currentTransactionId + 1) hstore
  rcases hfind : s.connTxns.find? (fun p => p.1 = conn) with _ | q
  · by_cases hsi : lvl = TXN_ISOLATION_SNAPSHOT_ISOLATION <;>
      simp [execBegin, DBState.getNewTransactionId, DBState.ensureIsolationLevel,
        hiso, DBState.getNewGsn, DBState.setTransactionStartGsn,
        DBState.addTransaction, DBState.isAllowedForConn,
        DBState.isNewTransactionId, hstore, hfs, DBState.registerForConn,
        DBState.connIds, hfind, DBState.getTransactionStore,
        DBState.addTransactionToWal, hsi, NewTransactionRow]
  · by_cases hm : (s.currentTransactionId + 1) ∈ q.2 <;>
      by_cases hsi : lvl = TXN_ISOLATION_SNAPSHOT_ISOLATION <;>
      simp [execBegin, DBState.getNewTransactionId, DBState.ensureIsolationLevel,
        hiso, DBState.getNewGsn, DBState.setTransactionStartGsn,
        DBState.addTransaction, DBState.isAllowedForConn,
        DBState.isNewTransactionId, hstore, hfs, DBState.registerForConn,
        DBState.connIds, hfind, hm, DBState.getTransactionStore,
        DBState.addTransactionToWal, hsi, NewTransactionRow]

/-- After `execBegin`, the new transaction id is registered for the
connection. -/
theorem execBegin_connMem (s : DBState) (lvl : String) (conn : Nat)
    (hiso : s.isoLevels.find? (fun p => p.1 = s.currentTransactionId + 1) =
      none)
    (hstore : s.stores.any (fun p => p.1 = s.currentTransactionId + 1) =
      false) :
    (s.currentTransactionId + 1) ∈ (execBegin lvl conn s).1.connIds conn := by
  have hfs := find?_eq_none_of_any_eq_false s.stores
    (s.currentTransactionId + 1) hstore
  rcases hfind : s.connTxns.find? (fun p => p.1 = conn) with _ | q
  · by_cases hsi : lvl = TXN_ISOLATION_SNAPSHOT_ISOLATION <;>
      simp [execBegin, DBState.getNewTransactionId, DBState.ensureIsolationLevel,
        hiso, DBState.getNewGsn, DBState.setTransactionStartGsn,
        DBState.addTransaction, DBState.isAllowedForConn,
        DBState.isNewTransactionId, hstore, hfs, DBState.registerForConn,
        DBState.connIds, hfind, DBState.getTransactionStore,
        DBState.addTransactionToWal, hsi, NewTransactionRow,
        natListUpsert_find_self]
  · by_cases hm : (s.currentTransactionId + 1) ∈ q.2 <;>
      by_cases hsi : lvl = TXN_ISOLATION_SNAPSHOT_ISOLATION <;>
      simp [execBegin, DBState.getNewTransactionId, DBState.ensureIsolationLevel,
        hiso, DBState.getNewGsn, DBState.setTransactionStartGsn,
        DBState.addTransaction, DBState.isAllowedForConn,
        DBState.isNewTransactionId, hstore, hfs, DBState.registerForConn,
        DBState.connIds, hfind, hm, DBState.getTransactionStore,
        DBState.addTransactionToWal, hsi, NewTransactionRow,
        natListUpsert_find_self]

/-- The commit validation loop skips a staged row whose value is nil. -/
theorem commitValidate_nullRow (T conn : Nat) (u : DBState)
    (st : BufferStore) (hg : st.get TypeKeyNull = none) :
    commitValidate T st conn u [TypeKeyNull] [] = (u, Except.ok []) := by
  simp [commitValidate, hg]

/-- `AddTransaction` when the transaction is already registered for the
connection: registration is a no-op on the id list and the row is staged. -/
theorem addTransaction_registered (u : DBState) (row : TransactionRow)
    (conn : Nat)
    (hm : (u.connIds conn).contains row.transactionId = true) :
    u.addTransaction row conn =
      ({ u with
          connTxns := natListUpsert u.connTxns conn (u.connIds conn),
          stores := natListUpsert u.stores row.transactionId
            (((u.getTransactionStore row.transactionId).getD
              NewBufferStore).put row.payload.key row.payload.newValue) },
        Except.ok ()) := by
  rcases hq : u.connTxns.find? (fun p => p.1 = conn) with _ | q
  · simp [DBState.connIds, hq] at hm
  · simp only [DBState.connIds, hq] at hm
    have hm2 : row.transactionId ∈ q.2 := by simpa using hm
    by_cases hn : u.stores.any (fun p => p.1 = row.transactionId) = true <;>
      simp [DBState.addTransaction, DBState.isAllowedForConn,
        DBState.isNewTransactionId, DBState.registerForConn, DBState.connIds,
        hq, hn, hm, hm2, DBState.getTransactionStore]

/-- `execCommit` of a registered transaction whose staging store holds only
a null-key row with a nil value returns OK and leaves the buffer store
untouched: the commit loop skips the nil value, so nothing is applied. -/
theorem execCommit_nullStore_ex (t : DBState) (T conn : Nat)
    (st : BufferStore) (q : Nat × List Nat)
    (hkeys : st.keys = [TypeKeyNull])
    (hg : st.get TypeKeyNull = none)
    (hfind2 : t.stores.find? (fun p => p.1 = T) = some (T, st))
    (hq : t.connTxns.find? (fun p => p.1 = conn) = some q)
    (hm : T ∈ q.2) :
    (execCommit T conn t).2 = Except.ok "OK" ∧
    (execCommit T conn t).1.buffer = t.buffer := by
  simp only [execCommit, DBState.getNewGsn, DBState.getTransactionStore,
    hfind2, hkeys, hg, commitValidate_nullRow,
    NewTransactionRow, addTransaction_registered, DBState.connIds, hq, hm,
    List.contains, List.elem_eq_mem, decide_eq_true_eq,
    natListUpsert_find_self, DBState.addTransactionToWal, applyEntries,
    List.foldl_nil, DBState.clearTransactionStore]
  exact ⟨trivial, trivial⟩

/-- C10: a `BEGIN`–`COMMIT` pair with no operation in between returns the
fresh transaction id and then OK, and leaves the versioned table exactly as
it was: the null-key row staged by BEGIN carries a nil value and is skipped
by the commit loop, so nothing is applied. -/
theorem beginCommitLeavesTableUnchanged (s : DBState) (lvl : String)
    (conn : Nat)
    (hlvl : lvl = TXN_ISOLATION_READ_COMMITTED ∨
      lvl = TXN_ISOLATION_REPEATABLE_READ ∨
      lvl = TXN_ISOLATION_SNAPSHOT_ISOLATION ∨
      lvl = TXN_ISOLATION_SERIALIZABLE)
    (hiso : s.isoLevels.find? (fun p => p.1 = s.currentTransactionId + 1) =
      none)
    (hstore : s.stores.any (fun p => p.1 = s.currentTransactionId + 1) =
      false) :
    (execBegin lvl conn s).2 =
      Except.ok (toString (s.currentTransactionId + 1)) ∧
    (execCommit (s.currentTransactionId + 1) conn (execBegin lvl conn s).1).2 =
      Except.ok "OK" ∧
    (execCommit (s.currentTransactionId + 1) conn
      (execBegin lvl conn s).1).1.buffer = s.buffer := by
  have h1 := execBegin_snd s lvl conn hiso hstore
  have h2 := execBegin_buffer s lvl conn hiso hstore
  have h3 := execBegin_stores s lvl conn hiso hstore
  have h4 := execBegin_connMem s lvl conn hiso hstore
  have hfind2 : (execBegin lvl conn s).1.stores.find?
      (fun p => p.1 = s.currentTransactionId + 1) =
      some (s.currentTransactionId + 1,
        NewBufferStore.put { key := TypeKeyNull, gsn := s.currentGsn + 1 }
          none) := by
    rw [h3]; exact natListUpsert_find_self _ _ _
  rcases hq : (execBegin lvl conn s).1.connTxns.find? (fun p => p.1 = conn)
      with _ | q
  · simp [DBState.connIds, hq] at h4
  · have hm : s.currentTransactionId + 1 ∈ q.2 := by
      simpa [DBState.connIds, hq] using h4
    have h5 := execCommit_nullStore_ex (execBegin lvl conn s).1
      (s.currentTransactionId + 1) conn _ q
      (nullStagedStore_keys (s.currentGsn + 1))
      (nullStagedStore_get (s.currentGsn + 1)) hfind2 hq hm
    exact ⟨h1, h5.1, h5.2.trans h2⟩

/-- C3: under snapshot isolation with start GSN `G`, `ReadValue` answers with
the transaction's own staged version when one exists, and otherwise with the
committed version of the key having the greatest GSN `≤ G`
(`GetVersionAtOrBeforeGsn`); when neither exists the read reports `none`
(not found). -/
theorem siReadIsSnapshotOrOwnWrite (s : DBState) (t conn : Nat) (k : String)
    (G : Nat)
    (hiso : s.isoLevels.find? (fun p => p.1 = t) =
      some (t, TXN_ISOLATION_SNAPSHOT_ISOLATION))
    (hstart : s.startGsns.find? (fun p => p.1 = t) = some (t, G))
    (hallowed : s.isAllowedForConn t conn = true) :
    (s.readValue t k conn).2 =
      Except.ok
        (match (s.getTransactionStore t).bind (fun st => st.get k) with
         | some v => some v
         | none => s.buffer.getVersionAtOrBeforeGsn k G) := by
  rcases hb : (s.getTransactionStore t).bind (fun st => st.get k) with _ | w <;>
    simp [DBState.readValue, DBState.getIsolationLevel, hiso,
      DBState.getStoreByTransactionId, hallowed, hb,
      DBState.getTransactionStartGsn, hstart, DBState.getVersionAtGsn,
      TXN_ISOLATION_SNAPSHOT_ISOLATION, TXN_ISOLATION_READ_COMMITTED,
      TXN_ISOLATION_REPEATABLE_READ, TXN_ISOLATION_SERIALIZABLE]

/-- Witness for C3: transaction 2 of the snapshot-isolation scenario (start
GSN 2) reads `k` before staging anything: the read falls through to the
snapshot version. -/
theorem siReadIsSnapshotOrOwnWrite_witness :
    c8AfterBegin.isoLevels.find? (fun p => p.1 = 2) =
      some (2, TXN_ISOLATION_SNAPSHOT_ISOLATION) ∧
    c8AfterBegin.startGsns.find? (fun p => p.1 = 2) = some (2, 2) ∧
    c8AfterBegin.isAllowedForConn 2 0 = true ∧
    (c8AfterBegin.readValue 2 "k" 0).2 =
      Except.ok
        (match (c8AfterBegin.getTransactionStore 2).bind (fun st => st.get "k")
            with
         | some v => some v
         | none => c8AfterBegin.buffer.getVersionAtOrBeforeGsn "k" 2) :=
  ⟨by decide, by decide, by decide,
   siReadIsSnapshotOrOwnWrite c8AfterBegin 2 0 "k" 2 (by decide) (by decide)
     (by decide)⟩

/-- C4: under every isolation level, when the transaction's staging store
contains a (non-tombstone) version of the key — as it does right after the
transaction issued `PUT k v` — `ReadValue` returns that staged version
without consulting the table, and a `GET` of the key inside the transaction
answers with its bytes. -/
theorem readYourWritesStagedFirst (s : DBState) (t conn : Nat) (k : String)
    (v : V) (lvl : String)
    (hlvl : lvl = TXN_ISOLATION_READ_COMMITTED ∨
      lvl = TXN_ISOLATION_REPEATABLE_READ ∨
      lvl = TXN_ISOLATION_SNAPSHOT_ISOLATION ∨
      lvl = TXN_ISOLATION_SERIALIZABLE)
    (hiso : s.isoLevels.find? (fun p => p.1 = t) = some (t, lvl))
    (hstaged : (s.getTransactionStore t).bind (fun st => st.get k) = some v)
    (hallowed : s.isAllowedForConn t conn = true)
    (hlock : s.locks.canGrantLock k LockType.readLock t = true)
    (hv : v.type ≠ DataType.typeTombstone) :
    (s.readValue t k conn).2 = Except.ok (some v) ∧
    (execGet ⟨k, true, t⟩ conn s).2 = Except.ok v.value := by
  rcases hfind : s.stores.find? (fun q => q.1 = t) with _ | p
  · simp [DBState.getTransactionStore, hfind] at hstaged
  · have hany : s.stores.any (fun q => q.1 = t) = true := by
      cases hA : s.stores.any (fun q => q.1 = t)
      · rw [find?_eq_none_of_any_eq_false s.stores t hA] at hfind
        cases hfind
      · rfl
    simp only [DBState.getTransactionStore, hfind, Option.bind_some] at hstaged
    rcases hc : s.connTxns.find? (fun q => q.1 = conn) with _ | c
    · simp [DBState.isAllowedForConn, DBState.isNewTransactionId, hany, hc]
        at hallowed
    · simp only [DBState.isAllowedForConn, DBState.isNewTransactionId, hany,
        hc, Bool.not_true, Bool.false_eq_true, if_false] at hallowed
      have hcont' : t ∈ c.2 := by simpa using hallowed
      rcases hlvl with h | h | h | h <;> subst h <;>
        simp [DBState.readValue, DBState.getIsolationLevel, hiso,
          DBState.getStoreByTransactionId, DBState.isAllowedForConn,
          DBState.isNewTransactionId, hany, hc, DBState.connIds, hallowed,
          hcont', DBState.getTransactionStore, hfind, hstaged, execGet,
          DBState.acquireReadLock, LMState.acquireLock, hlock,
          NewTransactionRow, addTransaction_registered,
          DBState.addTransactionToWal, hv, List.contains, List.elem_eq_mem,
          decide_eq_true_eq, TXN_ISOLATION_READ_COMMITTED,
          TXN_ISOLATION_REPEATABLE_READ, TXN_ISOLATION_SNAPSHOT_ISOLATION,
          TXN_ISOLATION_SERIALIZABLE]

/-- Witness for C4: transaction 1 just staged `PUT k 1`; the in-transaction
`GET k` answers `1` from the staging store. -/
theorem readYourWritesStagedFirst_witness :
    c1AfterPut.isoLevels.find? (fun p => p.1 = 1) =
      some (1, TXN_ISOLATION_READ_COMMITTED) ∧
    (c1AfterPut.getTransactionStore 1).bind (fun st => st.get "k") =
      some { type := DataType.typeString, value := "1" } ∧
    c1AfterPut.isAllowedForConn 1 0 = true ∧
    c1AfterPut.locks.canGrantLock "k" LockType.readLock 1 = true ∧
    ((c1AfterPut.readValue 1 "k" 0).2 =
      Except.ok (some { type := DataType.typeString, value := "1" }) ∧
    (execGet ⟨"k", true, 1⟩ 0 c1AfterPut).2 = Except.ok "1") :=
  ⟨by decide, by decide, by decide, by decide,
   readYourWritesStagedFirst c1AfterPut 1 0 "k"
     { type := DataType.typeString, value := "1" }
     TXN_ISOLATION_READ_COMMITTED (Or.inl rfl) (by decide) (by decide)
     (by decide) (by decide) (by decide)⟩

/-- C2: inside a SNAPSHOT_ISOLATION transaction with start GSN `G`, a `PUT`
of key `k` is decided exactly by first-committer-wins: it fails with the
write-write conflict error iff the table holds a committed version of `k`
whose latest GSN exceeds `G`, and is accepted as `QUEUED` when `k` is absent
or its latest GSN is `≤ G`. -/
theorem siPutFirstCommitterWins (s : DBState) (t conn : Nat) (k v : String)
    (G : Nat)
    (hiso : s.isoLevels.find? (fun p => p.1 = t) =
      some (t, TXN_ISOLATION_SNAPSHOT_ISOLATION))
    (hstart : s.startGsns.find? (fun p => p.1 = t) = some (t, G))
    (hallowed : s.isAllowedForConn t conn = true)
    (hlock : s.locks.canGrantLock k LockType.writeLock t = true) :
    (execPut ⟨k, v, true, t⟩ conn s).2 =
      (match s.buffer.getLatestGsn k with
       | Except.ok latestGsn =>
         if latestGsn > G then
           Except.error "write-write conflict detected - another transaction committed first"
         else Except.ok "QUEUED"
       | Except.error _ => Except.ok "QUEUED") := by
  cases hA : s.stores.any (fun q => q.1 = t)
  · have hfind := find?_eq_none_of_any_eq_false s.stores t hA
    rcases hL : s.buffer.getLatestGsn k with e | L
    · simp [execPut, DBState.getIsolationLevel, hiso, DBState.acquireWriteLock,
        LMState.acquireLock, hlock, DBState.getNewGsn, DBState.readValue,
        DBState.getStoreByTransactionId, DBState.isAllowedForConn,
        DBState.isNewTransactionId, hA, hfind, DBState.connIds,
        DBState.getTransactionStore, DBState.getTransactionStartGsn, hstart,
        DBState.getVersionAtGsn, DBState.validateWrite,
        DBState.validateFirstCommitterWins, hL, NewTransactionRow,
        DBState.addTransaction, DBState.registerForConn,
        DBState.addTransactionToWal, List.contains, List.elem_eq_mem,
        decide_eq_true_eq, TXN_ISOLATION_READ_COMMITTED,
        TXN_ISOLATION_REPEATABLE_READ, TXN_ISOLATION_SNAPSHOT_ISOLATION,
        TXN_ISOLATION_SERIALIZABLE]
    · by_cases hgt : L > G <;>
        simp [execPut, DBState.getIsolationLevel, hiso, DBState.acquireWriteLock,
          LMState.acquireLock, hlock, DBState.getNewGsn, DBState.readValue,
          DBState.getStoreByTransactionId, DBState.isAllowedForConn,
          DBState.isNewTransactionId, hA, hfind, DBState.connIds,
          DBState.getTransactionStore, DBState.getTransactionStartGsn, hstart,
          DBState.getVersionAtGsn, DBState.validateWrite,
          DBState.validateFirstCommitterWins, hL, hgt, NewTransactionRow,
          DBState.addTransaction, DBState.registerForConn,
          DBState.addTransactionToWal, List.contains, List.elem_eq_mem,
          decide_eq_true_eq, TXN_ISOLATION_READ_COMMITTED,
          TXN_ISOLATION_REPEATABLE_READ, TXN_ISOLATION_SNAPSHOT_ISOLATION,
          TXN_ISOLATION_SERIALIZABLE]
  · simp only [DBState.isAllowedForConn, DBState.isNewTransactionId, hA]
      at hallowed
    rcases hc : s.connTxns.find? (fun q => q.1 = conn) with _ | c
    · rw [hc] at hallowed
      simp at hallowed
    · rw [hc] at hallowed
      simp only [] at hallowed
      have hcont' : t ∈ c.2 := by
        have : c.2.contains t = true := by simpa using hallowed
        simpa using this
      rcases hfind : s.stores.find? (fun q => q.1 = t) with _ | p
      · exfalso
        rcases List.any_eq_true.mp hA with ⟨x, hx, hpx⟩
        exact absurd hpx (by simpa using List.find?_eq_none.mp hfind x hx)
      · rcases hbp : p.2.get k with _ | w <;>
          rcases hL : s.buffer.getLatestGsn k with e | L
        · simp [execPut, DBState.getIsolationLevel, hiso,
            DBState.acquireWriteLock, LMState.acquireLock, hlock,
            DBState.getNewGsn, DBState.readValue,
            DBState.getStoreByTransactionId, DBState.isAllowedForConn,
            DBState.isNewTransactionId, hA, hfind, hc, hcont', hbp,
            DBState.connIds, DBState.getTransactionStore,
            DBState.getTransactionStartGsn, hstart, DBState.getVersionAtGsn,
            DBState.validateWrite, DBState.validateFirstCommitterWins, hL,
            NewTransactionRow, DBState.addTransaction, DBState.registerForConn,
            DBState.addTransactionToWal, List.contains, List.elem_eq_mem,
            decide_eq_true_eq, TXN_ISOLATION_READ_COMMITTED,
            TXN_ISOLATION_REPEATABLE_READ, TXN_ISOLATION_SNAPSHOT_ISOLATION,
            TXN_ISOLATION_SERIALIZABLE]
        · by_cases hgt : L > G <;>
            simp [execPut, DBState.getIsolationLevel, hiso,
              DBState.acquireWriteLock, LMState.acquireLock, hlock,
              DBState.getNewGsn, DBState.readValue,
              DBState.getStoreByTransactionId, DBState.isAllowedForConn,
              DBState.isNewTransactionId, hA, hfind, hc, hcont', hbp,
              DBState.connIds, DBState.getTransactionStore,
              DBState.getTransactionStartGsn, hstart, DBState.getVersionAtGsn,
              DBState.validateWrite, DBState.validateFirstCommitterWins, hL,
              hgt, NewTransactionRow, DBState.addTransaction,
              DBState.registerForConn, DBState.addTransactionToWal,
              List.contains, List.elem_eq_mem, decide_eq_true_eq,
              TXN_ISOLATION_READ_COMMITTED, TXN_ISOLATION_REPEATABLE_READ,
              TXN_ISOLATION_SNAPSHOT_ISOLATION, TXN_ISOLATION_SERIALIZABLE]
        · simp [execPut, DBState.getIsolationLevel, hiso,
            DBState.acquireWriteLock, LMState.acquireLock, hlock,
            DBState.getNewGsn, DBState.readValue,
            DBState.getStoreByTransactionId, DBState.isAllowedForConn,
            DBState.isNewTransactionId, hA, hfind, hc, hcont', hbp,
            DBState.connIds, DBState.getTransactionStore,
            DBState.getTransactionStartGsn, hstart, DBState.getVersionAtGsn,
            DBState.validateWrite, DBState.validateFirstCommitterWins, hL,
            NewTransactionRow, DBState.addTransaction, DBState.registerForConn,
            DBState.addTransactionToWal, List.contains, List.elem_eq_mem,
            decide_eq_true_eq, TXN_ISOLATION_READ_COMMITTED,
            TXN_ISOLATION_REPEATABLE_READ, TXN_ISOLATION_SNAPSHOT_ISOLATION,
            TXN_ISOLATION_SERIALIZABLE]
        · by_cases hgt : L > G <;>
            simp [execPut, DBState.getIsolationLevel, hiso,
              DBState.acquireWriteLock, LMState.acquireLock, hlock,
              DBState.getNewGsn, DBState.readValue,
              DBState.getStoreByTransactionId, DBState.isAllowedForConn,
              DBState.isNewTransactionId, hA, hfind, hc, hcont', hbp,
              DBState.connIds, DBState.getTransactionStore,
              DBState.getTransactionStartGsn, hstart, DBState.getVersionAtGsn,
              DBState.validateWrite, DBState.validateFirstCommitterWins, hL,
              hgt, NewTransactionRow, DBState.addTransaction,
              DBState.registerForConn, DBState.addTransactionToWal,
              List.contains, List.elem_eq_mem, decide_eq_true_eq,
              TXN_ISOLATION_READ_COMMITTED, TXN_ISOLATION_REPEATABLE_READ,
              TXN_ISOLATION_SNAPSHOT_ISOLATION, TXN_ISOLATION_SERIALIZABLE]


/-- Witness for C2: after another client auto-committed `PUT k b` (latest
GSN 3 > start GSN 2), transaction 2's `PUT k c` hits the conflict branch of
the characterization. -/
theorem siPutFirstCommitterWins_witness :
    c8AfterPut.isoLevels.find? (fun p => p.1 = 2) =
      some (2, TXN_ISOLATION_SNAPSHOT_ISOLATION) ∧
    c8AfterPut.startGsns.find? (fun p => p.1 = 2) = some (2, 2) ∧
    c8AfterPut.isAllowedForConn 2 0 = true ∧
    c8AfterPut.locks.canGrantLock "k" LockType.writeLock 2 = true ∧
    c8AfterPut.buffer.getLatestGsn "k" = Except.ok 3 ∧
    (execPut ⟨"k", "c", true, 2⟩ 0 c8AfterPut).2 =
      (match c8AfterPut.buffer.getLatestGsn "k" with
       | Except.ok latestGsn =>
         if latestGsn > 2 then
           Except.error "write-write conflict detected - another transaction committed first"
         else Except.ok "QUEUED"
       | Except.error _ => Except.ok "QUEUED") :=
  ⟨by decide, by decide, by decide, by decide, by decide,
   siPutFirstCommitterWins c8AfterPut 2 0 "k" "c" 2 (by decide) (by decide)
     (by decide) (by decide)⟩

/-- The commit validation loop skips every staged row whose value is nil or
byte-identical to the currently committed value, touching nothing. -/
theorem commitValidate_skips (T conn : Nat) (st : BufferStore) (u : DBState)
    (l : List String) (acc : List (K × V))
    (hid : l.all (fun keyStr =>
      match st.get keyStr with
      | none => true
      | some v =>
        match u.buffer.get keyStr with
        | some bv => decide (v.type = bv.type ∧ v.value = bv.value)
        | none => false) = true) :
    commitValidate T st conn u l acc = (u, Except.ok acc) := by
  induction l with
  | nil => simp [commitValidate]
  | cons key rest ih =>
    simp only [List.all_cons, Bool.and_eq_true] at hid
    obtain ⟨h1, h2⟩ := hid
    rcases hg : st.get key with _ | v
    · rw [hg] at h1
      simp [commitValidate, hg, ih h2]
    · rw [hg] at h1
      rcases hbv : u.buffer.get key with _ | bv
      · rw [hbv] at h1
        simp at h1
      · rw [hbv] at h1
        simp at h1
        simp [commitValidate, hg, hbv, h1, ih h2]

/-- C8 (amended): a registered transaction that staged no write — its
staging store holds only the nil BEGIN row and GET echoes — commits with OK
and leaves the table untouched, provided every read key's committed value is
still byte-identical to the echoed value at commit time (otherwise the
commit-time GSN check can fail it, as the counterexample shows). -/
theorem readOnlyCommitOfUnchangedReadsSucceeds (t : DBState) (T conn : Nat)
    (st : BufferStore) (q : Nat × List Nat)
    (hfind2 : t.stores.find? (fun p => p.1 = T) = some (T, st))
    (hq : t.connTxns.find? (fun p => p.1 = conn) = some q)
    (hm : T ∈ q.2)
    (hid : st.keys.all (fun keyStr =>
      match st.get keyStr with
      | none => true
      | some v =>
        match t.buffer.get keyStr with
        | some bv => decide (v.type = bv.type ∧ v.value = bv.value)
        | none => false) = true) :
    (execCommit T conn t).2 = Except.ok "OK" ∧
    (execCommit T conn t).1.buffer = t.buffer := by
  have hval : commitValidate T st conn
      { t with currentGsn := t.currentGsn + 1 } st.keys [] =
      ({ t with currentGsn := t.currentGsn + 1 }, Except.ok []) :=
    commitValidate_skips T conn st _ st.keys [] hid
  simp only [execCommit, DBState.getNewGsn, DBState.getTransactionStore,
    hfind2, hval, NewTransactionRow, addTransaction_registered,
    DBState.connIds, hq, hm, List.contains, List.elem_eq_mem,
    decide_eq_true_eq, natListUpsert_find_self, DBState.addTransactionToWal,
    applyEntries, List.foldl_nil, DBState.clearTransactionStore]
  exact ⟨trivial, trivial⟩


/-- Witness for C8 (amended): the read-only snapshot transaction 2 commits
cleanly when nobody overwrote `k` between its GET and its COMMIT. -/
theorem readOnlyCommitOfUnchangedReadsSucceeds_witness :
    c8AfterGet.stores.find? (fun p => p.1 = 2) =
      some (2, (c8AfterGet.getTransactionStore 2).getD NewBufferStore) ∧
    c8AfterGet.connTxns.find? (fun p => p.1 = 0) = some (0, [1, 2]) ∧
    2 ∈ [1, 2] ∧
    ((execCommit 2 0 c8AfterGet).2 = Except.ok "OK" ∧
     (execCommit 2 0 c8AfterGet).1.buffer = c8AfterGet.buffer) :=
  ⟨by decide, by decide, by decide,
   readOnlyCommitOfUnchangedReadsSucceeds c8AfterGet 2 0
     ((c8AfterGet.getTransactionStore 2).getD NewBufferStore) (0, [1, 2])
     (by decide) (by decide) (by decide) (by decide)⟩

theorem NewBufferStore_shard (k : String) :
    NewBufferStore.shard k = MapDataTable.empty := by
  have h4 : shardIndex k < 4 := shardIndex_lt k
  rcases (by omega :
      shardIndex k = 0 ∨ shardIndex k = 1 ∨ shardIndex k = 2 ∨
        shardIndex k = 3) with h0 | h0 | h0 | h0 <;>
    simp [BufferStore.shard, h0, NewBufferStore, NUMBER_OF_SHARDS,
      List.replicate]

theorem NewBufferStore_get (k : String) : NewBufferStore.get k = none := by
  rw [BufferStore.get, NewBufferStore_shard]
  rfl

theorem stagedVersions_NBS (k : String) :
    stagedVersions NewBufferStore k = [] := by
  rw [stagedVersions, NewBufferStore_shard]
  rfl

theorem NBS_put_get (k : String) (g : Nat) (w : Option V) :
    (NewBufferStore.put { key := k, gsn := g } w).get k = w := by
  refine bs_get_put_fresh NewBufferStore { key := k, gsn := g } w rfl ?_
  intro p hp
  rw [stagedVersions_NBS] at hp
  cases hp

theorem stagedVersions_NBS_put (k : String) (g : Nat) (w : Option V) :
    stagedVersions (NewBufferStore.put { key := k, gsn := g } w) k =
      [(g, w)] := by
  rw [stagedVersions,
    bs_shard_put_self NewBufferStore { key := k, gsn := g } w rfl,
    NewBufferStore_shard]
  simp [MapDataTable.put, MapDataTable.find, MapDataTable.empty, GsnMap.upsert]

theorem NBS_put_put_get (k : String) (g g' : Nat) (w w' : Option V)
    (h : g < g') :
    ((NewBufferStore.put { key := k, gsn := g } w).put
      { key := k, gsn := g' } w').get k = w' := by
  refine bs_get_put_fresh _ { key := k, gsn := g' } w' ?_ ?_
  · rw [bs_put_length]
    rfl
  · intro p hp
    rw [stagedVersions_NBS_put] at hp
    have hp2 : p = (g, w) := by simpa using hp
    subst hp2
    simpa using h

theorem autoPut_step (S : DBState) (k v : String)
    (hst : S.stores = []) (hiso : S.isoLevels = [])
    (hlk : S.locks = { lockTable := [], transactionLocks := [] })
    (hcn : S.connTxns = []) :
    (putCommand [k, v] 0 S).2 = Except.ok "OK" ∧
    (putCommand [k, v] 0 S).1.buffer =
      S.buffer.put { key := k, gsn := S.currentGsn + 1 }
        (some { type := DataType.typeString, value := v }) ∧
    (putCommand [k, v] 0 S).1.stores = [] ∧
    (putCommand [k, v] 0 S).1.isoLevels = [] ∧
    (putCommand [k, v] 0 S).1.locks =
      { lockTable := [], transactionLocks := [] } ∧
    (putCommand [k, v] 0 S).1.connTxns =
      [(0, [S.currentTransactionId + 1])] ∧
    (putCommand [k, v] 0 S).1.currentTransactionId =
      S.currentTransactionId + 1 ∧
    (putCommand [k, v] 0 S).1.currentGsn = S.currentGsn + 1 := by
  simp [putCommand, runCommand, ensurePut, execPut,
    DBState.getNewTransactionId, DBState.getIsolationLevel, hiso,
    DBState.acquireWriteLock, LMState.acquireLock, LMState.canGrantLock,
    LMState.locksOn, LMState.locksOf, LMState.grantLock, listUpsert,
    natListUpsert, hlk, DBState.getNewGsn, DBState.readValue,
    DBState.getStoreByTransactionId, DBState.isAllowedForConn,
    DBState.isNewTransactionId, hst, DBState.getTransactionStore,
    DBState.validateWrite, NewTransactionRow, DBState.addTransaction,
    DBState.registerForConn, DBState.connIds, hcn,
    DBState.addTransactionToWal, DBState.putTxnRowToBufferStore,
    DBState.clearTransactionStore, LMState.releaseAllLocks,
    LMState.releaseList, LMState.releaseLock, natListErase, strListErase,
    areLocksCompatible, List.contains, List.elem_eq_mem, decide_eq_true_eq,
    TXN_ISOLATION_READ_COMMITTED, TXN_ISOLATION_REPEATABLE_READ,
    TXN_ISOLATION_SNAPSHOT_ISOLATION, TXN_ISOLATION_SERIALIZABLE,
    DB_OP_PUT, TRANSACTION_STATE_COMMIT, TRANSACTION_STATE_QUEUED]

theorem autoDelete_step (S : DBState) (k : String)
    (hst : S.stores = []) (hiso : S.isoLevels = [])
    (hlk : S.locks = { lockTable := [], transactionLocks := [] })
    (hreg : (S.connIds 0).contains (S.currentTransactionId + 1) = false) :
    (deleteCommand [k] 0 S).2 = Except.ok "OK" ∧
    (deleteCommand [k] 0 S).1.buffer =
      S.buffer.put { key := k, gsn := S.currentGsn + 1 }
        (some { type := DataType.typeTombstone, value := "" }) ∧
    (deleteCommand [k] 0 S).1.stores = [] ∧
    (deleteCommand [k] 0 S).1.isoLevels = [] ∧
    (deleteCommand [k] 0 S).1.locks =
      { lockTable := [], transactionLocks := [] } := by
  rcases hc : S.connTxns.find? (fun p => p.1 = 0) with _ | c
  · simp [deleteCommand, runCommand, ensureDelete, execDelete,
      DBState.getNewTransactionId, DBState.getIsolationLevel, hiso,
      DBState.acquireWriteLock, LMState.acquireLock, LMState.canGrantLock,
      LMState.locksOn, LMState.locksOf, LMState.grantLock, listUpsert,
      natListUpsert, hlk, DBState.getNewGsn, DBState.readValue,
      DBState.getStoreByTransactionId, DBState.isAllowedForConn,
      DBState.isNewTransactionId, hst, DBState.getTransactionStore,
      DBState.validateWrite, NewTransactionRow, DBState.addTransaction,
      DBState.registerForConn, DBState.connIds, hc,
      DBState.addTransactionToWal, DBState.putTxnRowToBufferStore,
      DBState.clearTransactionStore, LMState.releaseAllLocks,
      LMState.releaseList, LMState.releaseLock, natListErase, strListErase,
      areLocksCompatible, List.contains, List.elem_eq_mem, decide_eq_true_eq,
      TXN_ISOLATION_READ_COMMITTED, TXN_ISOLATION_REPEATABLE_READ,
      TXN_ISOLATION_SNAPSHOT_ISOLATION, TXN_ISOLATION_SERIALIZABLE,
      DB_OP_DELETE, TRANSACTION_STATE_COMMIT, TRANSACTION_STATE_QUEUED]
  · simp only [DBState.connIds, hc] at hreg
    have hreg2 : S.currentTransactionId + 1 ∉ c.2 := by simpa using hreg
    simp [deleteCommand, runCommand, ensureDelete, execDelete,
      DBState.getNewTransactionId, DBState.getIsolationLevel, hiso,
      DBState.acquireWriteLock, LMState.acquireLock, LMState.canGrantLock,
      LMState.locksOn, LMState.locksOf, LMState.grantLock, listUpsert,
      natListUpsert, hlk, DBState.getNewGsn, DBState.readValue,
      DBState.getStoreByTransactionId, DBState.isAllowedForConn,
      DBState.isNewTransactionId, hst, DBState.getTransactionStore,
      DBState.validateWrite, NewTransactionRow, DBState.addTransaction,
      DBState.registerForConn, DBState.connIds, hc, hreg2,
      DBState.addTransactionToWal, DBState.putTxnRowToBufferStore,
      DBState.clearTransactionStore, LMState.releaseAllLocks,
      LMState.releaseList, LMState.releaseLock, natListErase, strListErase,
      areLocksCompatible, List.contains, List.elem_eq_mem, decide_eq_true_eq,
      TXN_ISOLATION_READ_COMMITTED, TXN_ISOLATION_REPEATABLE_READ,
      TXN_ISOLATION_SNAPSHOT_ISOLATION, TXN_ISOLATION_SERIALIZABLE,
      DB_OP_DELETE, TRANSACTION_STATE_COMMIT, TRANSACTION_STATE_QUEUED]

theorem autoGet_step (S : DBState) (k : String) (w : V)
    (hst : S.stores = []) (hiso : S.isoLevels = [])
    (hlk : S.locks = { lockTable := [], transactionLocks := [] })
    (hget : S.buffer.get k = some w) :
    (getCommand [k] 0 S).2 =
      Except.ok (if w.type = DataType.typeTombstone then "-2" else w.value)
    := by
  simp [getCommand, runCommand, ensureGet, execGet,
    DBState.getNewTransactionId, DBState.getIsolationLevel, hiso,
    DBState.acquireReadLock, LMState.acquireLock, LMState.canGrantLock,
    LMState.locksOn, LMState.locksOf, LMState.grantLock, listUpsert,
    natListUpsert, hlk, DBState.readValue,
    DBState.getStoreByTransactionId, DBState.isAllowedForConn,
    DBState.isNewTransactionId, hst, DBState.getTransactionStore, hget,
    DBState.releaseReadLock, LMState.releaseLock,
    areLocksCompatible, List.contains, List.elem_eq_mem, decide_eq_true_eq,
    TXN_ISOLATION_READ_COMMITTED, TXN_ISOLATION_REPEATABLE_READ,
    TXN_ISOLATION_SNAPSHOT_ISOLATION, TXN_ISOLATION_SERIALIZABLE]

/-- C6: in auto-commit mode on a fresh database, for every key `k` and value
`v`: `PUT k v` then `GET k` returns exactly `v`, and `PUT k v`, `DELETE k`,
`GET k` returns the tombstone sentinel `-2`. -/
theorem autoCommitRoundTrip (k v : String) :
    (getCommand [k] 0 (putCommand [k, v] 0 initState).1).2 = Except.ok v ∧
    (getCommand [k] 0
      (deleteCommand [k] 0 (putCommand [k, v] 0 initState).1).1).2 =
      Except.ok "-2" := by
  obtain ⟨hp2, hbuf, hst1, hiso1, hlk1, hcn1, hctid1, hgsn1⟩ :=
    autoPut_step initState k v rfl rfl rfl rfl
  have hg1 : (putCommand [k, v] 0 initState).1.buffer.get k =
      some { type := DataType.typeString, value := v } := by
    rw [hbuf]
    exact NBS_put_get k 1 (some { type := DataType.typeString, value := v })
  have h1 := autoGet_step (putCommand [k, v] 0 initState).1 k
    { type := DataType.typeString, value := v } hst1 hiso1 hlk1 hg1
  have hregd : ((putCommand [k, v] 0 initState).1.connIds 0).contains
      ((putCommand [k, v] 0 initState).1.currentTransactionId + 1) =
      false := by
    simp [DBState.connIds, hcn1, hctid1]
  obtain ⟨hd2, hdbuf, hdst, hdiso, hdlk⟩ :=
    autoDelete_step (putCommand [k, v] 0 initState).1 k hst1 hiso1 hlk1 hregd
  have hg2 : (deleteCommand [k] 0
      (putCommand [k, v] 0 initState).1).1.buffer.get k =
      some { type := DataType.typeTombstone, value := "" } := by
    rw [hdbuf, hbuf, hgsn1]
    exact NBS_put_put_get k 1 2
      (some { type := DataType.typeString, value := v })
      (some { type := DataType.typeTombstone, value := "" })
      (by omega)
  have h2 := autoGet_step
    (deleteCommand [k] 0 (putCommand [k, v] 0 initState).1).1 k
    { type := DataType.typeTombstone, value := "" } hdst hdiso hdlk hg2
  constructor
  · simpa using h1
  · simpa using h2

/-- C5: in a REPEATABLE_READ or SNAPSHOT_ISOLATION transaction, a GET that
answers a non-tombstone, non-missing value `bs` stages a read echo, and any
later GET of the same key inside the same transaction — in any later state
that preserves the transaction's staging store, isolation level, connection
registration and read-lock grantability, while the committed table may have
changed arbitrarily — answers the same `bs`. -/
theorem rrSiRepeatableGet (s s' : DBState) (t conn conn' : Nat) (k : String)
    (lvl bs : String) (G : Nat) (st : BufferStore) (c c' : Nat × List Nat)
    (hlvl : lvl = TXN_ISOLATION_REPEATABLE_READ ∨
      lvl = TXN_ISOLATION_SNAPSHOT_ISOLATION)
    (hiso : s.isoLevels.find? (fun p => p.1 = t) = some (t, lvl))
    (hstart : lvl = TXN_ISOLATION_SNAPSHOT_ISOLATION →
      s.startGsns.find? (fun p => p.1 = t) = some (t, G))
    (hfind : s.stores.find? (fun q => q.1 = t) = some (t, st))
    (hlen : st.length = NUMBER_OF_SHARDS)
    (hnil : ∀ p ∈ stagedVersions st k, p.2 = none →
      p.1 ≤ gsnOrZero s.buffer k)
    (hc : s.connTxns.find? (fun q => q.1 = conn) = some c)
    (hm : t ∈ c.2)
    (hlock : s.locks.canGrantLock k LockType.readLock t = true)
    (hfirst : (execGet ⟨k, true, t⟩ conn s).2 = Except.ok bs)
    (hbs1 : bs ≠ "-1") (hbs2 : bs ≠ "-2")
    (hstore2 : s'.stores.find? (fun q => q.1 = t) =
      (execGet ⟨k, true, t⟩ conn s).1.stores.find? (fun q => q.1 = t))
    (hiso2 : s'.isoLevels.find? (fun p => p.1 = t) = some (t, lvl))
    (hc2 : s'.connTxns.find? (fun q => q.1 = conn') = some c')
    (hm2 : t ∈ c'.2)
    (hlock2 : s'.locks.canGrantLock k LockType.readLock t = true) :
    (execGet ⟨k, true, t⟩ conn' s').2 = Except.ok bs := by
  have hany : s.stores.any (fun q => q.1 = t) = true := by
    cases hA : s.stores.any (fun q => q.1 = t)
    · rw [find?_eq_none_of_any_eq_false s.stores t hA] at hfind
      cases hfind
    · rfl
  have hsecond : ∀ (st2 : BufferStore) (w : V), st2.get k = some w →
      w.type ≠ DataType.typeTombstone →
      s'.stores.find? (fun q => q.1 = t) = some (t, st2) →
      (execGet ⟨k, true, t⟩ conn' s').2 = Except.ok w.value := by
    intro st2 w hg hw hf2
    have hany2 : s'.stores.any (fun q => q.1 = t) = true := by
      cases hA : s'.stores.any (fun q => q.1 = t)
      · rw [find?_eq_none_of_any_eq_false s'.stores t hA] at hf2
        cases hf2
      · rfl
    rcases hlvl with h | h <;> subst h <;>
      simp [execGet, DBState.getIsolationLevel, hiso2,
        DBState.acquireReadLock, LMState.acquireLock, hlock2,
        DBState.readValue, DBState.getStoreByTransactionId,
        DBState.isAllowedForConn, DBState.isNewTransactionId, hany2, hc2,
        DBState.connIds, hm2, DBState.getTransactionStore, hf2, hg, hw,
        NewTransactionRow, addTransaction_registered,
        DBState.addTransactionToWal, DBState.releaseReadLock,
        natListUpsert_find_self, List.contains, List.elem_eq_mem,
        decide_eq_true_eq, TXN_ISOLATION_READ_COMMITTED,
        TXN_ISOLATION_REPEATABLE_READ, TXN_ISOLATION_SNAPSHOT_ISOLATION,
        TXN_ISOLATION_SERIALIZABLE]
  rcases hsg : st.get k with _ | w
  · rcases hlvl with h | h <;> subst h
    · rcases hb : s.buffer.get k with _ | w
      · have hfe : (execGet ⟨k, true, t⟩ conn s).2 = Except.ok "-1" := by
          simp [execGet, DBState.getIsolationLevel, hiso,
            DBState.acquireReadLock, LMState.acquireLock, hlock,
            DBState.readValue, DBState.getStoreByTransactionId,
            DBState.isAllowedForConn, DBState.isNewTransactionId, hany, hc,
            DBState.connIds, hm, DBState.getTransactionStore, hfind, hsg, hb,
            DBState.getTransactionStartGsn, hstart, DBState.getVersionAtGsn,
            NewTransactionRow, addTransaction_registered,
            DBState.addTransactionToWal, DBState.releaseReadLock,
            natListUpsert_find_self, List.contains, List.elem_eq_mem,
            decide_eq_true_eq, TXN_ISOLATION_READ_COMMITTED,
            TXN_ISOLATION_REPEATABLE_READ, TXN_ISOLATION_SNAPSHOT_ISOLATION,
            TXN_ISOLATION_SERIALIZABLE]
        rw [hfe] at hfirst
        have hbx : "-1" = bs := by simpa using hfirst
        exact absurd hbx.symm hbs1
      · by_cases hw : w.type = DataType.typeTombstone
        · have hfe : (execGet ⟨k, true, t⟩ conn s).2 = Except.ok "-2" := by
            simp [execGet, DBState.getIsolationLevel, hiso,
              DBState.acquireReadLock, LMState.acquireLock, hlock,
              DBState.readValue, DBState.getStoreByTransactionId,
              DBState.isAllowedForConn, DBState.isNewTransactionId, hany, hc,
              DBState.connIds, hm, DBState.getTransactionStore, hfind, hsg,
              hb, hw, DBState.getTransactionStartGsn, hstart,
              DBState.getVersionAtGsn, NewTransactionRow,
              addTransaction_registered, DBState.addTransactionToWal,
              DBState.releaseReadLock, natListUpsert_find_self, List.contains,
              List.elem_eq_mem, decide_eq_true_eq,
              TXN_ISOLATION_READ_COMMITTED, TXN_ISOLATION_REPEATABLE_READ,
              TXN_ISOLATION_SNAPSHOT_ISOLATION, TXN_ISOLATION_SERIALIZABLE]
          rw [hfe] at hfirst
          have hbx : "-2" = bs := by simpa using hfirst
          exact absurd hbx.symm hbs2
        · have hfe1 : (execGet ⟨k, true, t⟩ conn s).2 =
              Except.ok w.value := by
            simp [execGet, DBState.getIsolationLevel, hiso,
              DBState.acquireReadLock, LMState.acquireLock, hlock,
              DBState.readValue, DBState.getStoreByTransactionId,
              DBState.isAllowedForConn, DBState.isNewTransactionId, hany, hc,
              DBState.connIds, hm, DBState.getTransactionStore, hfind, hsg,
              hb, hw, DBState.getTransactionStartGsn, hstart,
              DBState.getVersionAtGsn, NewTransactionRow,
              addTransaction_registered, DBState.addTransactionToWal,
              DBState.releaseReadLock, natListUpsert_find_self, List.contains,
              List.elem_eq_mem, decide_eq_true_eq,
              TXN_ISOLATION_READ_COMMITTED, TXN_ISOLATION_REPEATABLE_READ,
              TXN_ISOLATION_SNAPSHOT_ISOLATION, TXN_ISOLATION_SERIALIZABLE]
          have hfe2 : (execGet ⟨k, true, t⟩ conn s).1.stores.find?
              (fun q => q.1 = t) =
              some (t, st.put { key := k, gsn := gsnOrZero s.buffer k }
                (some w)) := by
            simp [execGet, DBState.getIsolationLevel, hiso,
              DBState.acquireReadLock, LMState.acquireLock, hlock,
              DBState.readValue, DBState.getStoreByTransactionId,
              DBState.isAllowedForConn, DBState.isNewTransactionId, hany, hc,
              DBState.connIds, hm, DBState.getTransactionStore, hfind, hsg,
              hb, hw, DBState.getTransactionStartGsn, hstart,
              DBState.getVersionAtGsn, NewTransactionRow,
              addTransaction_registered, DBState.addTransactionToWal,
              DBState.releaseReadLock, natListUpsert_find_self, List.contains,
              List.elem_eq_mem, decide_eq_true_eq,
              TXN_ISOLATION_READ_COMMITTED, TXN_ISOLATION_REPEATABLE_READ,
              TXN_ISOLATION_SNAPSHOT_ISOLATION, TXN_ISOLATION_SERIALIZABLE]
          rw [hfe1] at hfirst
          have hbsw : w.value = bs := by simpa using hfirst
          rw [← hbsw]
          exact hsecond _ w
            (bs_get_put_top st { key := k, gsn := gsnOrZero s.buffer k } w
              hlen hsg hnil)
            hw (hstore2.trans hfe2)
    · rcases hb : s.buffer.getVersionAtOrBeforeGsn k G with _ | w
      · have hfe : (execGet ⟨k, true, t⟩ conn s).2 = Except.ok "-1" := by
          simp [execGet, DBState.getIsolationLevel, hiso,
            DBState.acquireReadLock, LMState.acquireLock, hlock,
            DBState.readValue, DBState.getStoreByTransactionId,
            DBState.isAllowedForConn, DBState.isNewTransactionId, hany, hc,
            DBState.connIds, hm, DBState.getTransactionStore, hfind, hsg,
            hb, DBState.getTransactionStartGsn, hstart,
            DBState.getVersionAtGsn, NewTransactionRow,
            addTransaction_registered, DBState.addTransactionToWal,
            DBState.releaseReadLock, natListUpsert_find_self, List.contains,
            List.elem_eq_mem, decide_eq_true_eq,
            TXN_ISOLATION_READ_COMMITTED, TXN_ISOLATION_REPEATABLE_READ,
            TXN_ISOLATION_SNAPSHOT_ISOLATION, TXN_ISOLATION_SERIALIZABLE]
        rw [hfe] at hfirst
        have hbx : "-1" = bs := by simpa using hfirst
        exact absurd hbx.symm hbs1
      · by_cases hw : w.type = DataType.typeTombstone
        · have hfe : (execGet ⟨k, true, t⟩ conn s).2 = Except.ok "-2" := by
            simp [execGet, DBState.getIsolationLevel, hiso,
              DBState.acquireReadLock, LMState.acquireLock, hlock,
              DBState.readValue, DBState.getStoreByTransactionId,
              DBState.isAllowedForConn, DBState.isNewTransactionId, hany, hc,
              DBState.connIds, hm, DBState.getTransactionStore, hfind, hsg,
              hb, hw, DBState.getTransactionStartGsn, hstart,
              DBState.getVersionAtGsn, NewTransactionRow,
              addTransaction_registered, DBState.addTransactionToWal,
              DBState.releaseReadLock, natListUpsert_find_self, List.contains,
              List.elem_eq_mem, decide_eq_true_eq,
              TXN_ISOLATION_READ_COMMITTED, TXN_ISOLATION_REPEATABLE_READ,
              TXN_ISOLATION_SNAPSHOT_ISOLATION, TXN_ISOLATION_SERIALIZABLE]
          rw [hfe] at hfirst
          have hbx : "-2" = bs := by simpa using hfirst
          exact absurd hbx.symm hbs2
        · have hfe1 : (execGet ⟨k, true, t⟩ conn s).2 =
              Except.ok w.value := by
            simp [execGet, DBState.getIsolationLevel, hiso,
              DBState.acquireReadLock, LMState.acquireLock, hlock,
              DBState.readValue, DBState.getStoreByTransactionId,
              DBState.isAllowedForConn, DBState.isNewTransactionId, hany, hc,
              DBState.connIds, hm, DBState.getTransactionStore, hfind, hsg,
              hb, hw, DBState.getTransactionStartGsn, hstart,
              DBState.getVersionAtGsn, NewTransactionRow,
              addTransaction_registered, DBState.addTransactionToWal,
              DBState.releaseReadLock, natListUpsert_find_self, List.contains,
              List.elem_eq_mem, decide_eq_true_eq,
              TXN_ISOLATION_READ_COMMITTED, TXN_ISOLATION_REPEATABLE_READ,
              TXN_ISOLATION_SNAPSHOT_ISOLATION, TXN_ISOLATION_SERIALIZABLE]
          have hfe2 : (execGet ⟨k, true, t⟩ conn s).1.stores.find?
              (fun q => q.1 = t) =
              some (t, st.put { key := k, gsn := gsnOrZero s.buffer k }
                (some w)) := by
            simp [execGet, DBState.getIsolationLevel, hiso,
              DBState.acquireReadLock, LMState.acquireLock, hlock,
              DBState.readValue, DBState.getStoreByTransactionId,
              DBState.isAllowedForConn, DBState.isNewTransactionId, hany, hc,
              DBState.connIds, hm, DBState.getTransactionStore, hfind, hsg,
              hb, hw, DBState.getTransactionStartGsn, hstart,
              DBState.getVersionAtGsn, NewTransactionRow,
              addTransaction_registered, DBState.addTransactionToWal,
              DBState.releaseReadLock, natListUpsert_find_self, List.contains,
              List.elem_eq_mem, decide_eq_true_eq,
              TXN_ISOLATION_READ_COMMITTED, TXN_ISOLATION_REPEATABLE_READ,
              TXN_ISOLATION_SNAPSHOT_ISOLATION, TXN_ISOLATION_SERIALIZABLE]
          rw [hfe1] at hfirst
          have hbsw : w.value = bs := by simpa using hfirst
          rw [← hbsw]
          exact hsecond _ w
            (bs_get_put_top st { key := k, gsn := gsnOrZero s.buffer k } w
              hlen hsg hnil)
            hw (hstore2.trans hfe2)
  · by_cases hw : w.type = DataType.typeTombstone
    · have hfe : (execGet ⟨k, true, t⟩ conn s).2 = Except.ok "-2" := by
        rcases hlvl with h | h <;> subst h <;>
          simp [execGet, DBState.getIsolationLevel, hiso,
            DBState.acquireReadLock, LMState.acquireLock, hlock,
            DBState.readValue, DBState.getStoreByTransactionId,
            DBState.isAllowedForConn, DBState.isNewTransactionId, hany, hc,
            DBState.connIds, hm, DBState.getTransactionStore, hfind, hsg,
            hw, DBState.getTransactionStartGsn, hstart,
            DBState.getVersionAtGsn, NewTransactionRow,
            addTransaction_registered, DBState.addTransactionToWal,
            DBState.releaseReadLock, natListUpsert_find_self, List.contains,
            List.elem_eq_mem, decide_eq_true_eq,
            TXN_ISOLATION_READ_COMMITTED, TXN_ISOLATION_REPEATABLE_READ,
            TXN_ISOLATION_SNAPSHOT_ISOLATION, TXN_ISOLATION_SERIALIZABLE]
      rw [hfe] at hfirst
      have hbx : "-2" = bs := by simpa using hfirst
      exact absurd hbx.symm hbs2
    · have hfe1 : (execGet ⟨k, true, t⟩ conn s).2 = Except.ok w.value := by
        rcases hlvl with h | h <;> subst h <;>
          simp [execGet, DBState.getIsolationLevel, hiso,
            DBState.acquireReadLock, LMState.acquireLock, hlock,
            DBState.readValue, DBState.getStoreByTransactionId,
            DBState.isAllowedForConn, DBState.isNewTransactionId, hany, hc,
            DBState.connIds, hm, DBState.getTransactionStore, hfind, hsg,
            hw, DBState.getTransactionStartGsn, hstart,
            DBState.getVersionAtGsn, NewTransactionRow,
            addTransaction_registered, DBState.addTransactionToWal,
            DBState.releaseReadLock, natListUpsert_find_self, List.contains,
            List.elem_eq_mem, decide_eq_true_eq,
            TXN_ISOLATION_READ_COMMITTED, TXN_ISOLATION_REPEATABLE_READ,
            TXN_ISOLATION_SNAPSHOT_ISOLATION, TXN_ISOLATION_SERIALIZABLE]
      have hfe2 : (execGet ⟨k, true, t⟩ conn s).1.stores.find?
          (fun q => q.1 = t) =
          some (t, st.put { key := k, gsn := gsnOrZero s.buffer k }
            (some w)) := by
        rcases hlvl with h | h <;> subst h <;>
          simp [execGet, DBState.getIsolationLevel, hiso,
            DBState.acquireReadLock, LMState.acquireLock, hlock,
            DBState.readValue, DBState.getStoreByTransactionId,
            DBState.isAllowedForConn, DBState.isNewTransactionId, hany, hc,
            DBState.connIds, hm, DBState.getTransactionStore, hfind, hsg,
            hw, DBState.getTransactionStartGsn, hstart,
            DBState.getVersionAtGsn, NewTransactionRow,
            addTransaction_registered, DBState.addTransactionToWal,
            DBState.releaseReadLock, natListUpsert_find_self, List.contains,
            List.elem_eq_mem, decide_eq_true_eq,
            TXN_ISOLATION_READ_COMMITTED, TXN_ISOLATION_REPEATABLE_READ,
            TXN_ISOLATION_SNAPSHOT_ISOLATION, TXN_ISOLATION_SERIALIZABLE]
      rw [hfe1] at hfirst
      have hbsw : w.value = bs := by simpa using hfirst
      rw [← hbsw]
      exact hsecond _ w
        (bs_get_put_self st { key := k, gsn := gsnOrZero s.buffer k }
          (some w) hlen hsg)
        hw (hstore2.trans hfe2)


/-- Witness for C5, both isolation levels: the repeatable-read transaction 2
reads `k → a` and its repeated GET answers `a` again; the snapshot
transaction 2 reads `k → a` and — even after another client commits
`PUT k b` — its repeated GET still answers `a`. -/
theorem rrSiRepeatableGet_witness :
    ((execGet ⟨"k", true, 2⟩ 0 c5rrAfterBegin).2 = Except.ok "a" ∧
     (execGet ⟨"k", true, 2⟩ 0 c5rrAfterGet).2 = Except.ok "a") ∧
    ((execGet ⟨"k", true, 2⟩ 0 c8AfterBegin).2 = Except.ok "a" ∧
     c8AfterPut.buffer.get "k" =
       some { type := DataType.typeString, value := "b" } ∧
     (execGet ⟨"k", true, 2⟩ 0 c8AfterPut).2 = Except.ok "a") :=
  ⟨⟨by decide,
    rrSiRepeatableGet c5rrAfterBegin c5rrAfterGet 2 0 0 "k"
      TXN_ISOLATION_REPEATABLE_READ "a" 0
      ((c5rrAfterBegin.getTransactionStore 2).getD NewBufferStore)
      (0, [1, 2]) (0, [1, 2])
      (Or.inl rfl) (by decide) (by decide) (by decide) (by decide)
      (by decide) (by decide) (by decide) (by decide) (by decide)
      (by decide) (by decide) (by decide) (by decide) (by decide)
      (by decide) (by decide)⟩,
   ⟨by decide, by decide,
    rrSiRepeatableGet c8AfterBegin c8AfterPut 2 0 0 "k"
      TXN_ISOLATION_SNAPSHOT_ISOLATION "a" 2
      ((c8AfterBegin.getTransactionStore 2).getD NewBufferStore)
      (0, [1, 2]) (0, [1, 2, 3])
      (Or.inr rfl) (by decide) (by decide) (by decide) (by decide)
      (by decide) (by decide) (by decide) (by decide) (by decide)
      (by decide) (by decide) (by decide) (by decide) (by decide)
      (by decide) (by decide)⟩⟩

/-- Witness for C10: `BEGIN`/`COMMIT` on the fresh database. -/
theorem beginCommitLeavesTableUnchanged_witness :
    (execBegin TXN_ISOLATION_READ_COMMITTED 0 initState).2 =
      Except.ok (toString (initState.currentTransactionId + 1)) ∧
    (execCommit (initState.currentTransactionId + 1) 0
      (execBegin TXN_ISOLATION_READ_COMMITTED 0 initState).1).2 =
      Except.ok "OK" ∧
    (execCommit (initState.currentTransactionId + 1) 0
      (execBegin TXN_ISOLATION_READ_COMMITTED 0 initState).1).1.buffer =
      initState.buffer :=
  beginCommitLeavesTableUnchanged initState TXN_ISOLATION_READ_COMMITTED 0
    (Or.inl rfl) rfl rfl

end Meteor
